import Mathlib

/-!
# mira220 camera sensor driver: a shallow embedding

Verification development for `esp_cam_sensor/sensors/mira220/mira220.c`.

The driver talks to the sensor through a register bus (SCCB).  The bus is an
external collaborator, so it is a parameter of every definition: a
`Transport` answers each register access from the history of everything the
driver did on the bus before.  Every driver function threads the bus log
(the list of bus events so far) and returns the extended log, so the events a
call issues are exactly what it appends to the log.

Machine integers are `Nat`/`Int`; the conversions C performs at a call are
written out with `%`.  Pointers to the device and to output buffers are taken
to be valid (the driver's NULL checks are not modelled); `dev->cur_format` is
the only pointer that the code itself tests against NULL and is an `Option`.
-/

set_option linter.unusedVariables false

namespace Mira220

/-! ## Error codes (esp_err.h) -/

/-- Value of `ESP_OK`. -/
def ESP_OK : Int := 0
/-- Value of `ESP_FAIL`. -/
def ESP_FAIL : Int := -1
/-- Value of `ESP_ERR_INVALID_ARG`. -/
def ESP_ERR_INVALID_ARG : Int := 0x102
/-- Value of `ESP_ERR_NOT_SUPPORTED`. -/
def ESP_ERR_NOT_SUPPORTED : Int := 0x106

/-! ## The register bus -/

/-- One observable action of the driver on the outside world: a register
write, a register read, or a call of `delay_ms`. -/
inductive BusEvent where
  | write (reg data : Nat)
  | read (reg : Nat)
  | delay (ms : Nat)
  deriving DecidableEq, Repr

/-- The register transport behind `dev->sccb_handle`
(`esp_sccb_transmit_reg_a16v8` / `esp_sccb_transmit_receive_reg_a16v8`).
`write log reg data` is the `esp_err_t` the bus returns for that write after
the history `log`; `read log reg` is the `esp_err_t` and the byte stored in
the read buffer. -/
structure Transport where
  write : List BusEvent → Nat → Nat → Int
  read : List BusEvent → Nat → Int × Nat

/-- The register writes of a log, in order, as (address, value) pairs. -/
def writesOf : List BusEvent → List (Nat × Nat)
  | [] => []
  | BusEvent.write r d :: es => (r, d) :: writesOf es
  | _ :: es => writesOf es

/-- Every write the transport is ever asked for succeeds. -/
def AllWritesOk (t : Transport) : Prop :=
  ∀ log reg data, t.write log reg data = ESP_OK

/-- Source `mira220_read`: one register read (`uint16_t reg`). -/
def mira220_read (t : Transport) (log : List BusEvent) (reg : Nat) :
    (Int × Nat) × List BusEvent :=
  let reg16 := reg % 65536
  (t.read log reg16, log ++ [BusEvent.read reg16])

/-- Source `mira220_write`: one register write (`uint16_t reg`,
`uint8_t data`: the arguments are converted at the call). -/
def mira220_write (t : Transport) (log : List BusEvent) (reg data : Nat) :
    Int × List BusEvent :=
  let reg16 := reg % 65536
  let data8 := data % 256
  (t.write log reg16 data8, log ++ [BusEvent.write reg16 data8])

/-- Source macro `delay_ms(ms)`: the log records the requested milliseconds. -/
def delay_ms (log : List BusEvent) (ms : Nat) : List BusEvent :=
  log ++ [BusEvent.delay ms]

/-! ## Register programs -/

/-- Modelled from the spec: `mira220_reginfo_t` is declared in
`mira220_settings.h`, which is not among the sources; a register program is
a sequence of (address: u16, value: u8) pairs. -/
structure mira220_reginfo_t where
  reg : Fin 65536
  val : Fin 256
  deriving DecidableEq, Repr

/-- The loop of `mira220_write_array`, on the part of `regarray` from index
`i` on, with the current `ret`.  Running off the end of the array (no
sentinel) is an out-of-bounds read in C: `none`. -/
def mira220_write_array_loop (t : Transport) :
    List mira220_reginfo_t → Int → List BusEvent → Option (Int × List BusEvent)
  | [], _, _ => none
  | r :: rest, ret, log =>
    if r.reg.val = 0xFFFF ∧ r.val.val = 0xFF then some (ret, log)
    else
      let w := mira220_write t log r.reg.val r.val.val
      mira220_write_array_loop t rest w.1 w.2

/-- Source `mira220_write_array`. -/
def mira220_write_array (t : Transport) (log : List BusEvent)
    (regarray : List mira220_reginfo_t) : Option (Int × List BusEvent) :=
  mira220_write_array_loop t regarray ESP_OK (delay_ms log 100)

/-- The end-of-sequence pair of the spec: address 0xFFFF and value 0xFF. -/
def isSentinel (r : mira220_reginfo_t) : Bool :=
  r.reg.val == 0xFFFF && r.val.val == 0xFF

/-- The spec's reading of a register program: the pairs that precede the
first sentinel pair. -/
def beforeSentinel (P : List mira220_reginfo_t) : List mira220_reginfo_t :=
  P.takeWhile (fun r => !isSentinel r)

/-- The write event that emits a pair as data. -/
def writeEvent (r : mira220_reginfo_t) : BusEvent :=
  BusEvent.write r.reg.val r.val.val

/-! ## Constants and types of the headers -/

/-- Constants, macros and the register table that the driver takes from
headers which are not among the sources (`mira220.h`, `mira220_settings.h`,
`esp_cam_sensor.h`): register addresses, the register program of the one
catalog format, parameter ids, ioctl command codes and enumeration tags. -/
structure Env where
  mira220_REG_MODE : Nat
  mira220_REG_START : Nat
  mira220_REG_EXP_L : Nat
  mira220_REG_EXP_H : Nat
  mira220_REG_SENSOR_ID_H : Nat
  mira220_REG_SENSOR_ID_L : Nat
  init_reglist_MIPI_2lane_1024_600_6fps : List mira220_reginfo_t
  ESP_CAM_SENSOR_EXPOSURE_VAL : Nat
  ESP_CAM_SENSOR_GAIN : Nat
  ESP_CAM_SENSOR_VFLIP : Nat
  ESP_CAM_SENSOR_HMIRROR : Nat
  ESP_CAM_SENSOR_IOC_S_STREAM : Nat
  ESP_CAM_SENSOR_IOC_S_TEST_PATTERN : Nat
  ESP_CAM_SENSOR_PARAM_TYPE_NUMBER : Nat
  ESP_CAM_SENSOR_PIXFORMAT_RAW8 : Nat
  ESP_CAM_SENSOR_MIPI_CSI : Nat
  ESP_CAM_SENSOR_BAYER_BGGR : Nat
  SENSOR_ISP_INFO_VERSION_DEFAULT : Nat

/-- Fixed safety offset: source macro `mira220_EXP_MAX_OFFSET`. -/
def mira220_EXP_MAX_OFFSET : Nat := 0x06
/-- Source macro `mira220_VTS_MAX`. -/
def mira220_VTS_MAX : Nat := 0x7fff
/-- Source macro `mira220_GROUP_HOLD_START`. -/
def mira220_GROUP_HOLD_START : Nat := 0x00
/-- Source macro `mira220_GROUP_HOLD_END`. -/
def mira220_GROUP_HOLD_END : Nat := 0x30
/-- Source macro `mira220_GROUP_HOLD_DELAY_FRAMES`. -/
def mira220_GROUP_HOLD_DELAY_FRAMES : Nat := 0x01
/-- Source macro `mira220_PID`. -/
def mira220_PID : Nat := 0x130
/-- Source macro `mira220_SENSOR_NAME`. -/
def mira220_SENSOR_NAME : String := "mira220"

/-- Modelled from the spec: `esp_cam_sensor_isp_info_t` (its `isp_v1_info`
member) is declared in `esp_cam_sensor.h`, not among the sources; the fields
are those the driver initialises or reads (timing info: line length, frame
length in lines, pixel clock, bayer layout). -/
structure esp_cam_sensor_isp_info_t where
  version : Nat
  pclk : Nat
  hts : Nat
  vts : Nat
  exp_def : Nat
  gain_def : Nat
  bayer_type : Nat
  deriving DecidableEq, Repr

/-- Modelled from the spec: lane configuration of a format
(`esp_cam_sensor.h`, not among the sources). -/
structure esp_cam_sensor_mipi_info_t where
  mipi_clk : Nat
  lane_num : Nat
  line_sync_en : Bool
  deriving DecidableEq, Repr

/-- Modelled from the spec: the FormatDescriptor `esp_cam_sensor_format_t`
(`esp_cam_sensor.h`, not among the sources), with the fields the driver's
catalog entry initialises.  `regs` is the register program the descriptor
refers to, `isp_info` a pointer that may be NULL. -/
structure esp_cam_sensor_format_t where
  name : String
  format : Nat
  port : Nat
  xclk : Nat
  width : Nat
  height : Nat
  regs : List mira220_reginfo_t
  regs_size : Nat
  fps : Nat
  isp_info : Option esp_cam_sensor_isp_info_t
  mipi_info : esp_cam_sensor_mipi_info_t
  deriving DecidableEq, Repr

/-- Source table `mira220_isp_info[0]`; members without an initialiser are 0. -/
def mira220_isp_info (env : Env) : esp_cam_sensor_isp_info_t :=
  { version := env.SENSOR_ISP_INFO_VERSION_DEFAULT
    pclk := 36900000
    hts := 1500
    vts := 4100
    exp_def := 0
    gain_def := 0
    bayer_type := env.ESP_CAM_SENSOR_BAYER_BGGR }

/-- Source table `mira220_format_info`: it has one entry, so index 0 is the
only value of `CONFIG_CAMERA_MIRA220_MIPI_IF_FORMAT_INDEX_DEFAULT` inside the
table, and this entry is the build's default format. -/
def mira220_format_info (env : Env) : esp_cam_sensor_format_t :=
  { name := "MIPI_2lane_RAW8_1024_600_6fps"
    format := env.ESP_CAM_SENSOR_PIXFORMAT_RAW8
    port := env.ESP_CAM_SENSOR_MIPI_CSI
    xclk := 38400000
    width := 1024
    height := 600
    regs := env.init_reglist_MIPI_2lane_1024_600_6fps
    regs_size := env.init_reglist_MIPI_2lane_1024_600_6fps.length
    fps := 6
    isp_info := some (mira220_isp_info env)
    mipi_info := { mipi_clk := 400000000, lane_num := 2, line_sync_en := false } }

/-- Source struct `mira220_para_t`. -/
structure mira220_para_t where
  exposure_val : Nat
  exposure_max : Nat
  gain_index : Nat
  vflip_en : Nat
  hmirror_en : Nat
  deriving DecidableEq, Repr

/-- Source struct `mira220_cam`. -/
structure mira220_cam where
  mira220_para : mira220_para_t
  deriving DecidableEq, Repr

/-- Modelled from the spec: `esp_cam_sensor_id_t` (`esp_cam_sensor.h`, not
among the sources); the driver uses its 16-bit part-id `pid`. -/
structure esp_cam_sensor_id_t where
  pid : Nat
  deriving DecidableEq, Repr

/-- Modelled from the spec: the SensorState `esp_cam_sensor_device_t`
(`esp_cam_sensor.h`, not among the sources), with the members the driver
touches.  `cur_format` is the current FormatDescriptor reference (NULL is
`none`), `stream_status` the streaming flag, an 8-bit unsigned member
(`uint8_t`, values 0 to 255), and `priv` the driver's own `mira220_cam`. -/
structure esp_cam_sensor_device_t where
  name : String
  sccb_handle : Nat
  xclk_pin : Int
  reset_pin : Int
  pwdn_pin : Int
  sensor_port : Nat
  cur_format : Option esp_cam_sensor_format_t
  id : esp_cam_sensor_id_t
  stream_status : Int
  priv : mira220_cam
  deriving DecidableEq, Repr

/-- Modelled from the spec: `esp_cam_sensor_config_t` (`esp_cam_sensor.h`, not
among the sources), with the members `mira220_detect` copies. -/
structure esp_cam_sensor_config_t where
  sccb_handle : Nat
  reset_pin : Int
  pwdn_pin : Int
  xclk_pin : Int
  sensor_port : Nat
  deriving DecidableEq, Repr

/-- Modelled from the spec: `esp_cam_sensor_param_desc_t`
(`esp_cam_sensor.h`, not among the sources): id, type, and for a number the
minimum, maximum and step, and the default value. -/
structure esp_cam_sensor_param_desc_t where
  id : Nat
  type : Nat
  number_minimum : Int
  number_maximum : Int
  number_step : Int
  default_value : Int
  deriving DecidableEq, Repr

/-- C's `a && b` on integers: 1 when both operands are non-zero, else 0. -/
def logicalAnd (a b : Nat) : Nat :=
  if a ≠ 0 ∧ b ≠ 0 then 1 else 0

/-- The `int` read through `*(int *)arg` from a 32-bit word. -/
def toInt32 (w : Nat) : Int :=
  if w % 2 ^ 32 < 2 ^ 31 then (w % 2 ^ 32 : Nat) else ((w % 2 ^ 32 : Nat) : Int) - 2 ^ 32

/-! ## The driver operations -/

/-- Source `mira220_set_test_pattern`. -/
def mira220_set_test_pattern (t : Transport) (log : List BusEvent)
    (dev : esp_cam_sensor_device_t) (enable : Int) : Int × List BusEvent :=
  mira220_write t log 0x2091 (if enable ≠ 0 then 0x01 else 0x00)

/-- Source `mira220_hw_reset`. -/
def mira220_hw_reset (dev : esp_cam_sensor_device_t) : Int := ESP_OK

/-- Source `mira220_soft_reset`. -/
def mira220_soft_reset (dev : esp_cam_sensor_device_t) : Int := ESP_OK

/-- Source `mira220_get_sensor_id`: the result, the `id` buffer after the
call, and the log. -/
def mira220_get_sensor_id (env : Env) (t : Transport) (log : List BusEvent)
    (dev : esp_cam_sensor_device_t) (id : esp_cam_sensor_id_t) :
    Int × esp_cam_sensor_id_t × List BusEvent :=
  let r1 := mira220_read t log env.mira220_REG_SENSOR_ID_H
  if r1.1.1 ≠ ESP_OK then (r1.1.1, id, r1.2)
  else
    let pid_h := r1.1.2 % 256
    let r2 := mira220_read t r1.2 env.mira220_REG_SENSOR_ID_L
    if r2.1.1 ≠ ESP_OK then (r2.1.1, id, r2.2)
    else
      let pid_l := r2.1.2 % 256
      (ESP_OK, { id with pid := ((pid_h <<< 8) ||| pid_l) % 65536 }, r2.2)

/-- Source `mira220_set_stream`.  The assignment `dev->stream_status = enable`
converts the `int` to the 8-bit unsigned member: the value stored is
`enable` modulo 256. -/
def mira220_set_stream (env : Env) (t : Transport) (log : List BusEvent)
    (dev : esp_cam_sensor_device_t) (enable : Int) :
    Int × esp_cam_sensor_device_t × List BusEvent :=
  let w1 := mira220_write t log env.mira220_REG_MODE (if enable ≠ 0 then 0x10 else 0x02)
  let log1 := delay_ms w1.2 10
  let w2 := mira220_write t log1 env.mira220_REG_START (if enable ≠ 0 then 0x01 else 0x00)
  let log2 := delay_ms w2.2 10
  (ESP_OK, { dev with stream_status := enable % 256 }, log2)

/-- Source `mira220_set_mirror`. -/
def mira220_set_mirror (t : Transport) (log : List BusEvent)
    (dev : esp_cam_sensor_device_t) (enable : Int) : Int × List BusEvent :=
  mira220_write t log 0x209C (if enable ≠ 0 then 0x01 else 0x00)

/-- Source `mira220_set_vflip`. -/
def mira220_set_vflip (t : Transport) (log : List BusEvent)
    (dev : esp_cam_sensor_device_t) (enable : Int) : Int × List BusEvent :=
  mira220_write t log 0x1095 (if enable ≠ 0 then 0x01 else 0x00)

/-- Source `mira220_set_exp_val` (`uint32_t u32_val`).  The two data
arguments are the C expressions `value_buf&&0x00FF` and `value_buf&&0xFF00`;
the first write's result is overwritten by the second's. -/
def mira220_set_exp_val (env : Env) (t : Transport) (log : List BusEvent)
    (dev : esp_cam_sensor_device_t) (u32_val : Nat) :
    Int × esp_cam_sensor_device_t × List BusEvent :=
  let value_buf := u32_val % 2 ^ 32
  let w1 := mira220_write t log env.mira220_REG_EXP_L (logicalAnd value_buf 0x00FF)
  let w2 := mira220_write t w1.2 env.mira220_REG_EXP_H (logicalAnd value_buf 0xFF00)
  let ret := w2.1
  let dev1 : esp_cam_sensor_device_t :=
    if ret = ESP_OK then
      { dev with priv := { mira220_para := { dev.priv.mira220_para with exposure_val := value_buf } } }
    else dev
  (ESP_OK, dev1, w2.2)

/-- Source `mira220_set_total_gain_val`. -/
def mira220_set_total_gain_val (dev : esp_cam_sensor_device_t) (u32_val : Nat) : Int :=
  ESP_OK

/-- Source `mira220_query_para_desc`: the result and the descriptor after
the call.  Reading `exp_def` through a NULL `cur_format` or `isp_info` is
undefined in C: `none`. -/
def mira220_query_para_desc (env : Env) (dev : esp_cam_sensor_device_t)
    (qdesc : esp_cam_sensor_param_desc_t) : Option (Int × esp_cam_sensor_param_desc_t) :=
  if qdesc.id = env.ESP_CAM_SENSOR_EXPOSURE_VAL then
    match dev.cur_format with
    | none => none
    | some f =>
      match f.isp_info with
      | none => none
      | some isp =>
        some (ESP_OK, { qdesc with
          type := env.ESP_CAM_SENSOR_PARAM_TYPE_NUMBER
          number_minimum := 0xF
          number_maximum := 0x0FFF
          number_step := 1
          default_value := isp.exp_def })
  else if qdesc.id = env.ESP_CAM_SENSOR_VFLIP then
    some (ESP_OK, qdesc)
  else if qdesc.id = env.ESP_CAM_SENSOR_HMIRROR then
    some (ESP_OK, { qdesc with
      type := env.ESP_CAM_SENSOR_PARAM_TYPE_NUMBER
      number_minimum := 0
      number_maximum := 1
      number_step := 1
      default_value := 0 })
  else some (ESP_ERR_INVALID_ARG, qdesc)

/-- Source `mira220_get_para_value`: it returns `ret` right after
initialising it, before the `switch`; the result and the 32-bit word behind
`arg` after the call. -/
def mira220_get_para_value (env : Env) (dev : esp_cam_sensor_device_t)
    (id : Nat) (arg : Nat) : Int × Nat :=
  (ESP_OK, arg)

/-- Source `mira220_set_para_value`; `arg` is the 32-bit word the argument
pointer refers to. -/
def mira220_set_para_value (env : Env) (t : Transport) (log : List BusEvent)
    (dev : esp_cam_sensor_device_t) (id : Nat) (arg : Nat) :
    Int × esp_cam_sensor_device_t × List BusEvent :=
  if id = env.ESP_CAM_SENSOR_EXPOSURE_VAL then
    let u32_val := arg % 2 ^ 32
    mira220_set_exp_val env t log dev u32_val
  else if id = env.ESP_CAM_SENSOR_VFLIP then
    let r := mira220_set_vflip t log dev (toInt32 arg)
    (r.1, dev, r.2)
  else if id = env.ESP_CAM_SENSOR_HMIRROR then
    let r := mira220_set_mirror t log dev (toInt32 arg)
    (r.1, dev, r.2)
  else (ESP_ERR_INVALID_ARG, dev, log)

/-- Source `mira220_set_format`.  The `format` argument is overwritten with
the default catalog entry before it is used; the result of
`mira220_write_array` is stored in `ret` and not looked at. -/
def mira220_set_format (env : Env) (t : Transport) (log : List BusEvent)
    (dev : esp_cam_sensor_device_t) (format : Option esp_cam_sensor_format_t) :
    Option (Int × esp_cam_sensor_device_t × List BusEvent) :=
  let format := mira220_format_info env
  match mira220_write_array t log format.regs with
  | none => none
  | some (ret, log1) => some (ESP_OK, { dev with cur_format := some format }, log1)

/-- Source `mira220_get_format`: the result and the caller's `format` buffer
after the call. -/
def mira220_get_format (dev : esp_cam_sensor_device_t)
    (format : esp_cam_sensor_format_t) : Int × esp_cam_sensor_format_t :=
  match dev.cur_format with
  | some f => (ESP_OK, f)
  | none => (ESP_FAIL, format)

/-- Source `mira220_priv_ioctl`; `arg` is the 32-bit word the argument
pointer refers to. -/
def mira220_priv_ioctl (env : Env) (t : Transport) (log : List BusEvent)
    (dev : esp_cam_sensor_device_t) (cmd : Nat) (arg : Nat) :
    Int × esp_cam_sensor_device_t × List BusEvent :=
  if cmd = env.ESP_CAM_SENSOR_IOC_S_STREAM then
    mira220_set_stream env t log dev (toInt32 arg)
  else if cmd = env.ESP_CAM_SENSOR_IOC_S_TEST_PATTERN then
    let r := mira220_set_test_pattern t log dev (toInt32 arg)
    (r.1, dev, r.2)
  else (ESP_OK, dev, log)

/-- Source `mira220_power_on`. -/
def mira220_power_on (dev : esp_cam_sensor_device_t) : Int := ESP_OK

/-- Source `mira220_power_off`. -/
def mira220_power_off (dev : esp_cam_sensor_device_t) : Int := ESP_OK

/-- Source `mira220_detect`.  `calloc_ok` and `heap_caps_calloc_ok` say
whether the two allocations succeed; the memory is zero-initialised.  The
result is the device (NULL is `none`) and the log. -/
def mira220_detect (env : Env) (t : Transport) (log : List BusEvent)
    (config : esp_cam_sensor_config_t) (calloc_ok heap_caps_calloc_ok : Bool) :
    Option esp_cam_sensor_device_t × List BusEvent :=
  if !calloc_ok then (none, log)
  else if !heap_caps_calloc_ok then (none, log)
  else
    let dev : esp_cam_sensor_device_t :=
      { name := mira220_SENSOR_NAME
        sccb_handle := config.sccb_handle
        xclk_pin := config.xclk_pin
        reset_pin := config.reset_pin
        pwdn_pin := config.pwdn_pin
        sensor_port := config.sensor_port
        cur_format := some (mira220_format_info env)
        id := { pid := 0 }
        stream_status := 0
        priv := { mira220_para :=
          { exposure_val := 0, exposure_max := 0, gain_index := 0, vflip_en := 0, hmirror_en := 0 } } }
    if mira220_power_on dev ≠ ESP_OK then (none, log)
    else (some dev, log)

/-! ## Sequences of calls -/

/-- One call of a state-changing driver operation on a controller. -/
inductive Op where
  | set_format (format : Option esp_cam_sensor_format_t)
  | set_para_value (id arg : Nat)
  | priv_ioctl (cmd arg : Nat)

/-- Run one call: the device and log after it (`none` when the call is
undefined in C). -/
def runOp (env : Env) (t : Transport) (log : List BusEvent)
    (dev : esp_cam_sensor_device_t) : Op → Option (esp_cam_sensor_device_t × List BusEvent)
  | Op.set_format f => (mira220_set_format env t log dev f).map (fun r => r.2)
  | Op.set_para_value id arg => some (mira220_set_para_value env t log dev id arg).2
  | Op.priv_ioctl cmd arg => some (mira220_priv_ioctl env t log dev cmd arg).2

/-- Run a sequence of calls, one after the other. -/
def runOps (env : Env) (t : Transport) :
    List Op → esp_cam_sensor_device_t → List BusEvent →
    Option (esp_cam_sensor_device_t × List BusEvent)
  | [], dev, log => some (dev, log)
  | op :: ops, dev, log =>
    match runOp env t log dev op with
    | none => none
    | some r => runOps env t ops r.1 r.2

/-! ## Sample data -/

/-- A transport on which everything succeeds (reads return 0). -/
def okTransport : Transport :=
  ⟨fun _ _ _ => ESP_OK, fun _ _ => (ESP_OK, 0)⟩

/-- A transport whose write number `n` (counting from 0, over the whole
history) fails with `ESP_FAIL`; every other access succeeds. -/
def failNthWrite (n : Nat) : Transport :=
  ⟨fun log _ _ => if (writesOf log).length = n then ESP_FAIL else ESP_OK,
   fun _ _ => (ESP_OK, 0)⟩

/-- A program of three data pairs and the sentinel; the second and third
pairs are near-sentinels (only one of the two fields matches). -/
def sampleProgram : List mira220_reginfo_t :=
  [⟨0x1003, 0x08⟩, ⟨0xFFFF, 0x01⟩, ⟨0x3000, 0xFF⟩, ⟨0xFFFF, 0xFF⟩]

/-- Register addresses and codes for evaluating the driver on examples; the
register program of the format is `sampleProgram`. -/
def sampleEnv : Env :=
  { mira220_REG_MODE := 0x1003
    mira220_REG_START := 0x10F0
    mira220_REG_EXP_L := 0x100C
    mira220_REG_EXP_H := 0x100D
    mira220_REG_SENSOR_ID_H := 0x0011
    mira220_REG_SENSOR_ID_L := 0x0012
    init_reglist_MIPI_2lane_1024_600_6fps := sampleProgram
    ESP_CAM_SENSOR_EXPOSURE_VAL := 1
    ESP_CAM_SENSOR_GAIN := 2
    ESP_CAM_SENSOR_VFLIP := 3
    ESP_CAM_SENSOR_HMIRROR := 4
    ESP_CAM_SENSOR_IOC_S_STREAM := 10
    ESP_CAM_SENSOR_IOC_S_TEST_PATTERN := 11
    ESP_CAM_SENSOR_PARAM_TYPE_NUMBER := 1
    ESP_CAM_SENSOR_PIXFORMAT_RAW8 := 1
    ESP_CAM_SENSOR_MIPI_CSI := 1
    ESP_CAM_SENSOR_BAYER_BGGR := 1
    SENSOR_ISP_INFO_VERSION_DEFAULT := 1 }

/-- A bus configuration for examples. -/
def sampleConfig : esp_cam_sensor_config_t :=
  { sccb_handle := 1, reset_pin := -1, pwdn_pin := -1, xclk_pin := -1, sensor_port := 1 }

/-- The controller `mira220_detect` returns on `sampleEnv` when both
allocations succeed. -/
def sampleDev : esp_cam_sensor_device_t :=
  { name := mira220_SENSOR_NAME
    sccb_handle := 1
    xclk_pin := -1
    reset_pin := -1
    pwdn_pin := -1
    sensor_port := 1
    cur_format := some (mira220_format_info sampleEnv)
    id := { pid := 0 }
    stream_status := 0
    priv := { mira220_para :=
      { exposure_val := 0, exposure_max := 0, gain_index := 0, vflip_en := 0, hmirror_en := 0 } } }

/-- A format descriptor that is not the catalog entry: another name, size and
register program. -/
def otherFormat : esp_cam_sensor_format_t :=
  { name := "other"
    format := 1
    port := 1
    xclk := 24000000
    width := 640
    height := 480
    regs := [⟨0x2000, 0x01⟩, ⟨0xFFFF, 0xFF⟩]
    regs_size := 2
    fps := 30
    isp_info := none
    mipi_info := { mipi_clk := 200000000, lane_num := 1, line_sync_en := false } }

/-- A controller state with no current format (`cur_format` is NULL). -/
def noFormatDev : esp_cam_sensor_device_t :=
  { sampleDev with cur_format := none }

/-- The constants of an environment that are register addresses fit the
16-bit address of the bus. -/
def Env.regsInRange (env : Env) : Prop :=
  env.mira220_REG_MODE < 65536 ∧ env.mira220_REG_START < 65536
  ∧ env.mira220_REG_EXP_L < 65536 ∧ env.mira220_REG_EXP_H < 65536
  ∧ env.mira220_REG_SENSOR_ID_H < 65536 ∧ env.mira220_REG_SENSOR_ID_L < 65536

/-- The case labels of the `switch` statements are pairwise different
constants (C rejects a `switch` with two equal labels): the parameter ids the
driver dispatches on, and the two ioctl commands. -/
def Env.labelsDistinct (env : Env) : Prop :=
  env.ESP_CAM_SENSOR_EXPOSURE_VAL ≠ env.ESP_CAM_SENSOR_VFLIP
  ∧ env.ESP_CAM_SENSOR_EXPOSURE_VAL ≠ env.ESP_CAM_SENSOR_HMIRROR
  ∧ env.ESP_CAM_SENSOR_VFLIP ≠ env.ESP_CAM_SENSOR_HMIRROR
  ∧ env.ESP_CAM_SENSOR_IOC_S_STREAM ≠ env.ESP_CAM_SENSOR_IOC_S_TEST_PATTERN

/-- The reads of a log, in order, as register addresses. -/
def readsOf : List BusEvent → List Nat
  | [] => []
  | BusEvent.read r :: es => r :: readsOf es
  | _ :: es => readsOf es

/-- A transport whose first read (over the whole history) returns the result
`e1` and the byte `b1`, and every later read the result `e2` and the byte
`b2`; every write succeeds. -/
def readTransport (e1 : Int) (b1 : Nat) (e2 : Int) (b2 : Nat) : Transport :=
  ⟨fun _ _ _ => ESP_OK,
   fun log _ => if (readsOf log).length = 0 then (e1, b1) else (e2, b2)⟩

/-- A parameter descriptor whose fields hold left-over values. -/
def staleDesc (id : Nat) : esp_cam_sensor_param_desc_t :=
  { id := id, type := 7, number_minimum := 5, number_maximum := 9, number_step := 3,
    default_value := 4 }

/-! ## Lemmas on the bus log and on the write loop -/

/-- What `mira220_write_array` returns after walking `pairs` (none of them a
sentinel) from the log `log` with current `ret`: the result of the last write,
or `ret` when there is no pair. -/
def lastWriteResult (t : Transport) : List mira220_reginfo_t → Int → List BusEvent → Int
  | [], ret, _ => ret
  | r :: rest, _, log =>
    lastWriteResult t rest (t.write log r.reg.val r.val.val) (log ++ [writeEvent r])

theorem writesOf_append (a b : List BusEvent) :
    writesOf (a ++ b) = writesOf a ++ writesOf b := by
  induction a with
  | nil => rfl
  | cons e es ih => cases e <;> simp [writesOf, ih]

theorem writesOf_map_writeEvent (l : List mira220_reginfo_t) :
    writesOf (l.map writeEvent) = l.map (fun r => (r.reg.val, r.val.val)) := by
  induction l with
  | nil => rfl
  | cons r rs ih => simp [writeEvent, writesOf, ih]

theorem mira220_write_reginfo (t : Transport) (log : List BusEvent) (r : mira220_reginfo_t) :
    mira220_write t log r.reg.val r.val.val
      = (t.write log r.reg.val r.val.val, log ++ [writeEvent r]) := by
  simp [mira220_write, writeEvent, Nat.mod_eq_of_lt r.reg.isLt, Nat.mod_eq_of_lt r.val.isLt]

theorem isSentinel_iff (r : mira220_reginfo_t) :
    isSentinel r = true ↔ (r.reg.val = 0xFFFF ∧ r.val.val = 0xFF) := by
  simp [isSentinel]

theorem not_isSentinel_of_mem_beforeSentinel (P : List mira220_reginfo_t)
    (r : mira220_reginfo_t) (h : r ∈ beforeSentinel P) : isSentinel r = false := by
  have := List.mem_takeWhile_imp h
  simpa using this

/-- The loop on a program that holds a sentinel: it returns, having appended
one write per pair before the first sentinel, and its value is the result of
the last of these writes. -/
theorem mira220_write_array_loop_eq (t : Transport) (P : List mira220_reginfo_t)
    (hP : ∃ r ∈ P, r.reg.val = 0xFFFF ∧ r.val.val = 0xFF) (ret : Int) (log : List BusEvent) :
    mira220_write_array_loop t P ret log
      = some (lastWriteResult t (beforeSentinel P) ret log,
              log ++ (beforeSentinel P).map writeEvent) := by
  induction P generalizing ret log with
  | nil => simp at hP
  | cons r rest ih =>
    by_cases hr : r.reg.val = 0xFFFF ∧ r.val.val = 0xFF
    · have hs : isSentinel r = true := (isSentinel_iff r).2 hr
      simp [mira220_write_array_loop, hr, beforeSentinel, List.takeWhile, hs, lastWriteResult]
    · have hs : isSentinel r = false := by
        cases h : isSentinel r
        · rfl
        · exact absurd ((isSentinel_iff r).1 h) hr
      have hrest : ∃ q ∈ rest, q.reg.val = 0xFFFF ∧ q.val.val = 0xFF := by
        obtain ⟨q, hq, hq2⟩ := hP
        rcases List.mem_cons.1 hq with rfl | hq
        · exact absurd hq2 hr
        · exact ⟨q, hq, hq2⟩
      have hb : beforeSentinel (r :: rest) = r :: beforeSentinel rest := by
        simp [beforeSentinel, List.takeWhile, hs]
      rw [mira220_write_array_loop, if_neg hr, mira220_write_reginfo, hb]
      simp only [lastWriteResult, List.map_cons]
      rw [ih hrest]
      simp

theorem lastWriteResult_allOk (t : Transport) (ht : AllWritesOk t)
    (l : List mira220_reginfo_t) (log : List BusEvent) :
    lastWriteResult t l ESP_OK log = ESP_OK := by
  cases l with
  | nil => rfl
  | cons r rest =>
    simp only [lastWriteResult, ht log]
    generalize log ++ [writeEvent r] = log1
    induction rest generalizing log1 with
    | nil => rfl
    | cons q qs ih =>
      simp only [lastWriteResult, ht log1]
      exact ih _

theorem allWritesOk_okTransport : AllWritesOk okTransport := by
  intro _ _ _
  rfl

/-! ## C1: applying a register program -/

/-- C1: for every register program `P` that contains a sentinel pair
(address 0xFFFF, value 0xFF) and every transport on which all writes succeed,
`mira220_write_array` returns, and what it issues is the initial settle delay
followed by one write per pair of `P` before the first sentinel, in the
original order; so the writes are exactly those pairs and the sentinel pair is
not among them. -/
theorem C1_write_array_writes_pairs_before_sentinel (t : Transport) (log : List BusEvent)
    (P : List mira220_reginfo_t)
    (hP : ∃ r ∈ P, r.reg.val = 0xFFFF ∧ r.val.val = 0xFF) (ht : AllWritesOk t) :
    ∃ evs, mira220_write_array t log P = some (ESP_OK, log ++ evs)
      ∧ evs = BusEvent.delay 100 :: (beforeSentinel P).map writeEvent
      ∧ writesOf evs = (beforeSentinel P).map (fun r => (r.reg.val, r.val.val))
      ∧ (0xFFFF, 0xFF) ∉ writesOf evs := by
  refine ⟨BusEvent.delay 100 :: (beforeSentinel P).map writeEvent, ?_, rfl, ?_, ?_⟩
  · rw [mira220_write_array, mira220_write_array_loop_eq t P hP, lastWriteResult_allOk t ht]
    simp [delay_ms]
  · simp [writesOf, writesOf_map_writeEvent]
  · simp only [writesOf, writesOf_map_writeEvent, List.mem_map, not_exists, not_and]
    intro r hr heq
    have h1 := not_isSentinel_of_mem_beforeSentinel P r hr
    have h2 : isSentinel r = true := by
      rw [isSentinel_iff]
      simp only [Prod.mk.injEq] at heq
      exact heq
    rw [h1] at h2
    exact Bool.noConfusion h2

/-- C1 at `sampleProgram` on the all-succeeding transport: the two
near-sentinel pairs are written as data, the sentinel is not. -/
theorem C1_write_array_witness :
    (∃ r ∈ sampleProgram, r.reg.val = 0xFFFF ∧ r.val.val = 0xFF) ∧ AllWritesOk okTransport
    ∧ ∃ evs, mira220_write_array okTransport [] sampleProgram = some (ESP_OK, [] ++ evs)
      ∧ evs = BusEvent.delay 100 :: (beforeSentinel sampleProgram).map writeEvent
      ∧ writesOf evs = (beforeSentinel sampleProgram).map (fun r => (r.reg.val, r.val.val))
      ∧ (0xFFFF, 0xFF) ∉ writesOf evs :=
  ⟨by decide, allWritesOk_okTransport,
   C1_write_array_writes_pairs_before_sentinel okTransport [] sampleProgram (by decide)
     allWritesOk_okTransport⟩

/-- The run of `mira220_write_array` on `sampleProgram` when every write
succeeds. -/
theorem mira220_write_array_sampleProgram : mira220_write_array okTransport [] sampleProgram
    = some (ESP_OK, [BusEvent.delay 100, BusEvent.write 0x1003 0x08,
        BusEvent.write 0xFFFF 0x01, BusEvent.write 0x3000 0xFF]) := by decide

theorem lastWriteResult_append_singleton (t : Transport) (a : List mira220_reginfo_t)
    (r : mira220_reginfo_t) (ret : Int) (log : List BusEvent) :
    lastWriteResult t (a ++ [r]) ret log
      = t.write (log ++ a.map writeEvent) r.reg.val r.val.val := by
  induction a generalizing ret log with
  | nil => simp [lastWriteResult]
  | cons q qs ih => simp [lastWriteResult, ih]

theorem list_eq_take_append_of_last {α : Type} (l : List α) (k : Nat) (r : α)
    (hk : l[k]? = some r) (hlast : k + 1 = l.length) : l = l.take k ++ [r] := by
  induction l generalizing k with
  | nil => simp at hk
  | cons x xs ih =>
    cases k with
    | zero =>
      simp only [List.length_cons] at hlast
      have hx : xs = [] := List.eq_nil_of_length_eq_zero (by omega)
      subst hx
      simp at hk
      simp [hk]
    | succ n =>
      simp only [List.getElem?_cons_succ] at hk
      simp only [List.length_cons] at hlast
      have := ih n hk (by omega)
      simp only [List.take_succ_cons, List.cons_append]
      rw [← this]

/-- Running `mira220_write_array` on a program with a sentinel, whatever the
transport answers. -/
theorem mira220_write_array_eq (t : Transport) (log : List BusEvent)
    (P : List mira220_reginfo_t)
    (hP : ∃ r ∈ P, r.reg.val = 0xFFFF ∧ r.val.val = 0xFF) :
    mira220_write_array t log P
      = some (lastWriteResult t (beforeSentinel P) ESP_OK (log ++ [BusEvent.delay 100]),
              log ++ BusEvent.delay 100 :: (beforeSentinel P).map writeEvent) := by
  rw [mira220_write_array, mira220_write_array_loop_eq t P hP]
  simp [delay_ms]

/-! ## C2: a failing write does not stop the program -/

/-- C2, as stated, fails: on `sampleProgram` (three pairs and the sentinel)
with the write at index 1 the first and only one to fail, the write of the
pair at index 2 is still issued, and the value returned is `ESP_OK`, not the
error of the failed write. -/
theorem C2_write_array_continues_after_failure :
    (failNthWrite 1).write [BusEvent.delay 100] 0x1003 0x08 = ESP_OK
    ∧ (failNthWrite 1).write [BusEvent.delay 100, BusEvent.write 0x1003 0x08] 0xFFFF 0x01
        = ESP_FAIL
    ∧ mira220_write_array (failNthWrite 1) [] sampleProgram
        = some (ESP_OK, [BusEvent.delay 100, BusEvent.write 0x1003 0x08,
            BusEvent.write 0xFFFF 0x01, BusEvent.write 0x3000 0xFF])
    ∧ ESP_OK ≠ ESP_FAIL := by
  decide

/-- C2, amended: for every register program with a sentinel and every
transport, `mira220_write_array` issues the write of every pair before the
first sentinel, in order, whatever the writes return, and its value is the
result of the last write it issued; so it returns the error of a failing write
at index `k` when `k` is the last pair before the sentinel. -/
theorem C2_write_array_all_pairs_last_result (t : Transport) (log : List BusEvent)
    (P : List mira220_reginfo_t)
    (hP : ∃ r ∈ P, r.reg.val = 0xFFFF ∧ r.val.val = 0xFF) :
    ∃ ret, mira220_write_array t log P
        = some (ret, log ++ BusEvent.delay 100 :: (beforeSentinel P).map writeEvent)
      ∧ ∀ k r, (beforeSentinel P)[k]? = some r → k + 1 = (beforeSentinel P).length →
          ret = t.write
            (log ++ BusEvent.delay 100 :: ((beforeSentinel P).take k).map writeEvent)
            r.reg.val r.val.val := by
  refine ⟨_, mira220_write_array_eq t log P hP, ?_⟩
  intro k r hk hlast
  have hsplit := list_eq_take_append_of_last (beforeSentinel P) k r hk hlast
  generalize beforeSentinel P = pre at hsplit
  generalize pre.take k = a at hsplit
  subst hsplit
  rw [lastWriteResult_append_singleton]
  simp

/-- C2, amended, at `sampleProgram` with the last write (index 2) the one that
fails: all three writes are issued and the value is that write's error. -/
theorem C2_write_array_witness :
    (∃ r ∈ sampleProgram, r.reg.val = 0xFFFF ∧ r.val.val = 0xFF)
    ∧ ∃ ret, mira220_write_array (failNthWrite 2) [] sampleProgram
        = some (ret, [] ++ BusEvent.delay 100 :: (beforeSentinel sampleProgram).map writeEvent)
      ∧ ∀ k r, (beforeSentinel sampleProgram)[k]? = some r →
          k + 1 = (beforeSentinel sampleProgram).length →
          ret = (failNthWrite 2).write
            ([] ++ BusEvent.delay 100 :: ((beforeSentinel sampleProgram).take k).map writeEvent)
            r.reg.val r.val.val :=
  ⟨by decide, C2_write_array_all_pairs_last_result (failNthWrite 2) [] sampleProgram (by decide)⟩

/-- The run behind `C2_write_array_witness`, evaluated. -/
theorem mira220_write_array_sampleProgram_last_fails :
    mira220_write_array (failNthWrite 2) [] sampleProgram
      = some (ESP_FAIL, [BusEvent.delay 100, BusEvent.write 0x1003 0x08,
          BusEvent.write 0xFFFF 0x01, BusEvent.write 0x3000 0xFF]) := by
  decide

/-! ## C3, C4, C5: selecting and reporting the format -/

/-- Running `mira220_set_format` when the catalog's register program has a
sentinel: the argument plays no part, the program written is the catalog
entry's, the value is `ESP_OK` and the current format becomes the catalog
entry. -/
theorem mira220_set_format_eq (env : Env) (t : Transport) (log : List BusEvent)
    (dev : esp_cam_sensor_device_t) (format : Option esp_cam_sensor_format_t)
    (hP : ∃ r ∈ (mira220_format_info env).regs, r.reg.val = 0xFFFF ∧ r.val.val = 0xFF) :
    mira220_set_format env t log dev format
      = some (ESP_OK, { dev with cur_format := some (mira220_format_info env) },
          log ++ BusEvent.delay 100
            :: (beforeSentinel (mira220_format_info env).regs).map writeEvent) := by
  simp only [mira220_set_format]
  rw [mira220_write_array_eq t log _ hP]

theorem sampleEnv_has_sentinel :
    ∃ r ∈ (mira220_format_info sampleEnv).regs, r.reg.val = 0xFFFF ∧ r.val.val = 0xFF := by
  decide

/-- C3, as stated, fails: with a register program of three pairs and the
sentinel and the second write failing, `mira220_set_format` returns `ESP_OK`
(on the controller that `mira220_detect` returns and on one without a current
format), all three pairs are written, and a controller without a current
format has the catalog format as its current format afterwards. -/
theorem C3_set_format_reports_no_failure :
    (failNthWrite 1).write [BusEvent.delay 100, BusEvent.write 0x1003 0x08] 0xFFFF 0x01
        = ESP_FAIL
    ∧ (mira220_set_format sampleEnv (failNthWrite 1) [] sampleDev none).map (fun r => r.1)
        = some ESP_OK
    ∧ (mira220_set_format sampleEnv (failNthWrite 1) [] noFormatDev none).map (fun r => r.1)
        = some ESP_OK
    ∧ (mira220_set_format sampleEnv (failNthWrite 1) [] noFormatDev none).map
          (fun r => writesOf r.2.2)
        = some [(0x1003, 0x08), (0xFFFF, 0x01), (0x3000, 0xFF)]
    ∧ noFormatDev.cur_format = none
    ∧ (mira220_set_format sampleEnv (failNthWrite 1) [] noFormatDev none).map
          (fun r => r.2.1.cur_format)
        = some (some (mira220_format_info sampleEnv)) := by
  refine ⟨by decide, ?_, ?_, ?_, rfl, ?_⟩
  all_goals rw [mira220_set_format_eq _ _ _ _ _ sampleEnv_has_sentinel]
  · rfl
  · rfl
  · decide
  · rfl

/-- C3, amended: for every controller state whose current format is the
default catalog format (such as every controller `mira220_detect` returns) and
every transport, also one on which some write of the register program fails,
`mira220_set_format` returns and the controller is the same after the call as
before it, its current format included. -/
theorem C3_set_format_keeps_default_format (env : Env) (t : Transport) (log : List BusEvent)
    (dev : esp_cam_sensor_device_t) (format : Option esp_cam_sensor_format_t)
    (hP : ∃ r ∈ (mira220_format_info env).regs, r.reg.val = 0xFFFF ∧ r.val.val = 0xFF)
    (hdev : dev.cur_format = some (mira220_format_info env)) :
    ∃ ret dev1 log1, mira220_set_format env t log dev format = some (ret, dev1, log1)
      ∧ dev1.cur_format = dev.cur_format ∧ dev1 = dev := by
  refine ⟨_, _, _, mira220_set_format_eq env t log dev format hP, ?_, ?_⟩
  · simp [hdev]
  · cases dev
    simp only at hdev
    simp [hdev]

/-- C3, amended, on the controller of `sampleEnv` with the second write
failing. -/
theorem C3_set_format_witness :
    (∃ r ∈ (mira220_format_info sampleEnv).regs, r.reg.val = 0xFFFF ∧ r.val.val = 0xFF)
    ∧ sampleDev.cur_format = some (mira220_format_info sampleEnv)
    ∧ ∃ ret dev1 log1,
        mira220_set_format sampleEnv (failNthWrite 1) [] sampleDev none = some (ret, dev1, log1)
        ∧ dev1.cur_format = sampleDev.cur_format ∧ dev1 = sampleDev :=
  ⟨sampleEnv_has_sentinel, rfl,
   C3_set_format_keeps_default_format sampleEnv (failNthWrite 1) [] sampleDev none
     sampleEnv_has_sentinel rfl⟩

theorem mira220_set_exp_val_cur_format (env : Env) (t : Transport) (log : List BusEvent)
    (dev : esp_cam_sensor_device_t) (u32_val : Nat) :
    (mira220_set_exp_val env t log dev u32_val).2.1.cur_format = dev.cur_format := by
  simp only [mira220_set_exp_val]
  split <;> rfl

theorem mira220_set_para_value_cur_format (env : Env) (t : Transport) (log : List BusEvent)
    (dev : esp_cam_sensor_device_t) (id arg : Nat) :
    (mira220_set_para_value env t log dev id arg).2.1.cur_format = dev.cur_format := by
  simp only [mira220_set_para_value]
  split
  · exact mira220_set_exp_val_cur_format env t log dev _
  · split
    · rfl
    · split <;> rfl

theorem mira220_priv_ioctl_cur_format (env : Env) (t : Transport) (log : List BusEvent)
    (dev : esp_cam_sensor_device_t) (cmd arg : Nat) :
    (mira220_priv_ioctl env t log dev cmd arg).2.1.cur_format = dev.cur_format := by
  simp only [mira220_priv_ioctl]
  split
  · rfl
  · split <;> rfl

/-- One call keeps the current format at the catalog entry. -/
theorem runOp_cur_format (env : Env) (t : Transport) (log : List BusEvent)
    (dev : esp_cam_sensor_device_t) (op : Op)
    (hP : ∃ r ∈ (mira220_format_info env).regs, r.reg.val = 0xFFFF ∧ r.val.val = 0xFF)
    (hdev : dev.cur_format = some (mira220_format_info env)) :
    ∃ r, runOp env t log dev op = some r
      ∧ r.1.cur_format = some (mira220_format_info env) := by
  cases op with
  | set_format f =>
    refine ⟨({ dev with cur_format := some (mira220_format_info env) },
        log ++ BusEvent.delay 100
          :: (beforeSentinel (mira220_format_info env).regs).map writeEvent), ?_, rfl⟩
    simp only [runOp]
    rw [mira220_set_format_eq env t log dev f hP]
    rfl
  | set_para_value id arg =>
    exact ⟨_, rfl, by rw [mira220_set_para_value_cur_format, hdev]⟩
  | priv_ioctl cmd arg =>
    exact ⟨_, rfl, by rw [mira220_priv_ioctl_cur_format, hdev]⟩

/-- A sequence of calls keeps the current format at the catalog entry. -/
theorem runOps_cur_format (env : Env) (t : Transport) (ops : List Op)
    (hP : ∃ r ∈ (mira220_format_info env).regs, r.reg.val = 0xFFFF ∧ r.val.val = 0xFF)
    (dev : esp_cam_sensor_device_t) (log : List BusEvent)
    (hdev : dev.cur_format = some (mira220_format_info env)) :
    ∃ r, runOps env t ops dev log = some r
      ∧ r.1.cur_format = some (mira220_format_info env) := by
  induction ops generalizing dev log with
  | nil => exact ⟨(dev, log), rfl, hdev⟩
  | cons op ops ih =>
    obtain ⟨r, hr, hr2⟩ := runOp_cur_format env t log dev op hP hdev
    obtain ⟨r1, hr1, hr12⟩ := ih r.1 r.2 hr2
    refine ⟨r1, ?_, hr12⟩
    simp only [runOps, hr]
    exact hr1

theorem mira220_detect_cur_format (env : Env) (t : Transport) (log : List BusEvent)
    (config : esp_cam_sensor_config_t) (calloc_ok heap_caps_calloc_ok : Bool)
    (dev : esp_cam_sensor_device_t) (log0 : List BusEvent)
    (hdet : mira220_detect env t log config calloc_ok heap_caps_calloc_ok = (some dev, log0)) :
    dev.cur_format = some (mira220_format_info env) := by
  cases calloc_ok <;> cases heap_caps_calloc_ok <;>
    simp [mira220_detect, mira220_power_on, ESP_OK] at hdet
  rw [← hdet.1]

theorem mira220_detect_sampleEnv :
    mira220_detect sampleEnv okTransport [] sampleConfig true true = (some sampleDev, []) := by
  decide

/-- C4, as stated, fails: the controller that `mira220_detect` returns, on
which `mira220_set_format` was never called, already has a current format, and
`mira220_get_format` returns `ESP_OK` and copies the catalog descriptor into
the caller's buffer (which held another descriptor). -/
theorem C4_get_format_after_detect_reports_format :
    mira220_detect sampleEnv okTransport [] sampleConfig true true = (some sampleDev, [])
    ∧ mira220_get_format sampleDev otherFormat = (ESP_OK, mira220_format_info sampleEnv)
    ∧ mira220_format_info sampleEnv ≠ otherFormat
    ∧ ESP_OK ≠ ESP_FAIL := by
  decide

/-- C4, amended: on a controller returned by `mira220_detect`,
`mira220_get_format` returns `ESP_OK` and copies the default catalog
descriptor, before any `mira220_set_format` call and after any sequence of
`mira220_set_format`, `mira220_set_para_value` and `mira220_priv_ioctl` calls
on any transport (failing writes included); and on any controller state it
reports a failure and leaves the caller's buffer as it was exactly when
`dev->cur_format` is NULL. -/
theorem C4_get_format_reports_default_format (env : Env) (t : Transport)
    (log log0 : List BusEvent) (config : esp_cam_sensor_config_t)
    (calloc_ok heap_caps_calloc_ok : Bool) (dev : esp_cam_sensor_device_t)
    (ops : List Op) (buf : esp_cam_sensor_format_t)
    (hP : ∃ r ∈ (mira220_format_info env).regs, r.reg.val = 0xFFFF ∧ r.val.val = 0xFF)
    (hdet : mira220_detect env t log config calloc_ok heap_caps_calloc_ok = (some dev, log0)) :
    mira220_get_format dev buf = (ESP_OK, mira220_format_info env)
    ∧ (∃ dev1 log1, runOps env t ops dev log0 = some (dev1, log1)
        ∧ mira220_get_format dev1 buf = (ESP_OK, mira220_format_info env))
    ∧ ∀ d : esp_cam_sensor_device_t,
        (d.cur_format = none ↔ mira220_get_format d buf = (ESP_FAIL, buf))
        ∧ (d.cur_format = none ↔ (mira220_get_format d buf).1 ≠ ESP_OK) := by
  have hdev := mira220_detect_cur_format env t log config calloc_ok heap_caps_calloc_ok dev log0 hdet
  refine ⟨?_, ?_, ?_⟩
  · simp [mira220_get_format, hdev]
  · obtain ⟨r, hr, hr2⟩ := runOps_cur_format env t ops hP dev log0 hdev
    exact ⟨r.1, r.2, hr, by simp [mira220_get_format, hr2]⟩
  · intro d
    cases h : d.cur_format with
    | none => simp [mira220_get_format, h, ESP_OK, ESP_FAIL]
    | some f => simp [mira220_get_format, h, ESP_OK, ESP_FAIL]

/-- C4, amended, on the controller of `sampleEnv` after a failed
`mira220_set_format`, an exposure update and a stream start. -/
theorem C4_get_format_witness :
    (∃ r ∈ (mira220_format_info sampleEnv).regs, r.reg.val = 0xFFFF ∧ r.val.val = 0xFF)
    ∧ mira220_detect sampleEnv (failNthWrite 1) [] sampleConfig true true = (some sampleDev, [])
    ∧ mira220_get_format sampleDev otherFormat = (ESP_OK, mira220_format_info sampleEnv)
    ∧ (∃ dev1 log1,
        runOps sampleEnv (failNthWrite 1)
          [Op.set_format (some otherFormat), Op.set_para_value 1 100, Op.priv_ioctl 10 1]
          sampleDev [] = some (dev1, log1)
        ∧ mira220_get_format dev1 otherFormat = (ESP_OK, mira220_format_info sampleEnv))
    ∧ ∀ d : esp_cam_sensor_device_t,
        (d.cur_format = none ↔ mira220_get_format d otherFormat = (ESP_FAIL, otherFormat))
        ∧ (d.cur_format = none ↔ (mira220_get_format d otherFormat).1 ≠ ESP_OK) :=
  ⟨sampleEnv_has_sentinel, by decide,
   C4_get_format_reports_default_format sampleEnv (failNthWrite 1) [] [] sampleConfig true true
     sampleDev [Op.set_format (some otherFormat), Op.set_para_value 1 100, Op.priv_ioctl 10 1]
     otherFormat sampleEnv_has_sentinel (by decide)⟩

/-- C5, as stated, fails: passing `otherFormat`, whose register program is the
pair (0x2000, 0x01) and the sentinel, on a transport where every write
succeeds, `mira220_set_format` writes the catalog entry's program and not the
one of `otherFormat`, and the following `mira220_get_format` returns the
catalog entry, not `otherFormat`. -/
theorem C5_set_format_ignores_its_argument :
    (mira220_set_format sampleEnv okTransport [] sampleDev (some otherFormat)).map
        (fun r => writesOf r.2.2)
      = some [(0x1003, 0x08), (0xFFFF, 0x01), (0x3000, 0xFF)]
    ∧ (beforeSentinel otherFormat.regs).map (fun r => (r.reg.val, r.val.val)) = [(0x2000, 0x01)]
    ∧ (mira220_set_format sampleEnv okTransport [] sampleDev (some otherFormat)).map
        (fun r => mira220_get_format r.2.1 otherFormat)
      = some (ESP_OK, mira220_format_info sampleEnv)
    ∧ mira220_format_info sampleEnv ≠ otherFormat := by
  refine ⟨?_, by decide, ?_, by decide⟩
  all_goals rw [mira220_set_format_eq _ _ _ _ _ sampleEnv_has_sentinel]
  · decide
  · rfl

/-- C5, amended: for every format descriptor `f` passed to
`mira220_set_format` and every transport on which all writes succeed, the
writes issued are exactly the pairs of the default catalog format's register
program up to its sentinel, in order, after the settle delay; the call
returns `ESP_OK`; a following `mira220_get_format` returns the default catalog
format (which is `f` when `f` is that format); and applying the same `f`
again issues the same full write sequence again. -/
theorem C5_set_format_writes_default_program (env : Env) (t : Transport)
    (log : List BusEvent) (dev : esp_cam_sensor_device_t)
    (f : Option esp_cam_sensor_format_t) (buf : esp_cam_sensor_format_t)
    (hP : ∃ r ∈ (mira220_format_info env).regs, r.reg.val = 0xFFFF ∧ r.val.val = 0xFF)
    (ht : AllWritesOk t) :
    ∃ dev1 evs,
      mira220_set_format env t log dev f = some (ESP_OK, dev1, log ++ evs)
      ∧ evs = BusEvent.delay 100
          :: (beforeSentinel (mira220_format_info env).regs).map writeEvent
      ∧ writesOf evs
          = (beforeSentinel (mira220_format_info env).regs).map
              (fun r => (r.reg.val, r.val.val))
      ∧ mira220_get_format dev1 buf = (ESP_OK, mira220_format_info env)
      ∧ (f = some (mira220_format_info env) → some (mira220_get_format dev1 buf).2 = f)
      ∧ ∃ dev2, mira220_set_format env t (log ++ evs) dev1 f
          = some (ESP_OK, dev2, (log ++ evs) ++ evs) := by
  refine ⟨{ dev with cur_format := some (mira220_format_info env) },
    BusEvent.delay 100 :: (beforeSentinel (mira220_format_info env).regs).map writeEvent,
    mira220_set_format_eq env t log dev f hP, rfl, ?_, rfl, ?_, ?_⟩
  · simp [writesOf, writesOf_map_writeEvent]
  · intro hf
    rw [hf]
    rfl
  · exact ⟨_, mira220_set_format_eq env t _ _ f hP⟩

/-- C5, amended, at `otherFormat` on the controller of `sampleEnv`. -/
theorem C5_set_format_witness :
    (∃ r ∈ (mira220_format_info sampleEnv).regs, r.reg.val = 0xFFFF ∧ r.val.val = 0xFF)
    ∧ AllWritesOk okTransport
    ∧ ∃ dev1 evs,
      mira220_set_format sampleEnv okTransport [] sampleDev (some otherFormat)
        = some (ESP_OK, dev1, [] ++ evs)
      ∧ evs = BusEvent.delay 100
          :: (beforeSentinel (mira220_format_info sampleEnv).regs).map writeEvent
      ∧ writesOf evs
          = (beforeSentinel (mira220_format_info sampleEnv).regs).map
              (fun r => (r.reg.val, r.val.val))
      ∧ mira220_get_format dev1 otherFormat = (ESP_OK, mira220_format_info sampleEnv)
      ∧ (some otherFormat = some (mira220_format_info sampleEnv) →
          some (mira220_get_format dev1 otherFormat).2 = some otherFormat)
      ∧ ∃ dev2, mira220_set_format sampleEnv okTransport ([] ++ evs) dev1 (some otherFormat)
          = some (ESP_OK, dev2, ([] ++ evs) ++ evs) :=
  ⟨sampleEnv_has_sentinel, allWritesOk_okTransport,
   C5_set_format_writes_default_program sampleEnv okTransport [] sampleDev (some otherFormat)
     otherFormat sampleEnv_has_sentinel allWritesOk_okTransport⟩

/-! ## C6, C7, C8: the streaming switch -/

theorem sampleEnv_regsInRange : sampleEnv.regsInRange := by
  simp [Env.regsInRange, sampleEnv]

/-- C6, as stated, fails: starting the stream on the controller of
`sampleEnv` (streaming flag 0), with the mode-select write failing or with the
start-trigger write failing, `mira220_set_stream` returns `ESP_OK` and the
streaming flag is 1 afterwards. -/
theorem C6_set_stream_ignores_write_failure :
    sampleDev.stream_status = 0
    ∧ (failNthWrite 0).write [] 0x1003 0x10 = ESP_FAIL
    ∧ (mira220_set_stream sampleEnv (failNthWrite 0) [] sampleDev 1).1 = ESP_OK
    ∧ (mira220_set_stream sampleEnv (failNthWrite 0) [] sampleDev 1).2.1.stream_status = 1
    ∧ (failNthWrite 1).write [BusEvent.write 0x1003 0x10, BusEvent.delay 10] 0x10F0 0x01
        = ESP_FAIL
    ∧ (mira220_set_stream sampleEnv (failNthWrite 1) [] sampleDev 1).1 = ESP_OK
    ∧ (mira220_set_stream sampleEnv (failNthWrite 1) [] sampleDev 1).2.1.stream_status = 1
    ∧ (mira220_set_stream sampleEnv (failNthWrite 1) [] sampleDev 1).2.2
        = [BusEvent.write 0x1003 0x10, BusEvent.delay 10, BusEvent.write 0x10F0 0x01,
           BusEvent.delay 10] := by
  decide

/-- The streaming flag after `mira220_set_stream` is `enable` as the 8-bit
member stores it; for `enable` 256 that is 0 and for -1 it is 255. -/
theorem mira220_set_stream_flag_wraps :
    (mira220_set_stream sampleEnv okTransport [] sampleDev 256).2.1.stream_status = 0
    ∧ (mira220_set_stream sampleEnv okTransport [] sampleDev (-1)).2.1.stream_status = 255
    ∧ (mira220_set_stream sampleEnv okTransport [] sampleDev 1).2.1.stream_status = 1
    ∧ (mira220_set_stream sampleEnv okTransport [] sampleDev 0).2.1.stream_status = 0 := by
  decide

/-- C6, amended: for every controller state, every enable value that the
8-bit streaming flag can hold (0 to 255) and every transport, also one on
which the mode-select write or the start/stop-trigger write fails, the
streaming flag after `mira220_set_stream` is the requested enable value and
nothing else of the controller changes: the flag is assigned without regard to
the results of the two writes (for any `int` the flag is `enable` modulo
256). -/
theorem C6_set_stream_sets_flag_regardless (env : Env) (t : Transport) (log : List BusEvent)
    (dev : esp_cam_sensor_device_t) (enable : Int)
    (h0 : 0 ≤ enable) (h1 : enable < 256) :
    (mira220_set_stream env t log dev enable).2.1.stream_status = enable
    ∧ (mira220_set_stream env t log dev enable).2.1 = { dev with stream_status := enable }
    ∧ ∀ e : Int, (mira220_set_stream env t log dev e).2.1
        = { dev with stream_status := e % 256 } := by
  have hmod : enable % 256 = enable := Int.emod_eq_of_lt h0 h1
  refine ⟨?_, ?_, fun e => rfl⟩
  · show enable % 256 = enable
    exact hmod
  · show ({ dev with stream_status := enable % 256 } : esp_cam_sensor_device_t)
      = { dev with stream_status := enable }
    rw [hmod]

/-- C6, amended, on the controller of `sampleEnv` (streaming flag 0) with
`enable` 1 and the start-trigger write failing: the flag is 1 afterwards. -/
theorem C6_set_stream_witness :
    (0 : Int) ≤ 1 ∧ (1 : Int) < 256
    ∧ (failNthWrite 1).write [BusEvent.write 0x1003 0x10, BusEvent.delay 10] 0x10F0 0x01
        = ESP_FAIL
    ∧ sampleDev.stream_status = 0
    ∧ (mira220_set_stream sampleEnv (failNthWrite 1) [] sampleDev 1).2.1.stream_status = 1
    ∧ (mira220_set_stream sampleEnv (failNthWrite 1) [] sampleDev 1).2.1
        = { sampleDev with stream_status := 1 }
    ∧ ∀ e : Int, (mira220_set_stream sampleEnv (failNthWrite 1) [] sampleDev e).2.1
        = { sampleDev with stream_status := e % 256 } :=
  ⟨by decide, by decide, by decide, rfl,
   C6_set_stream_sets_flag_regardless sampleEnv (failNthWrite 1) [] sampleDev 1
     (by decide) (by decide)⟩

/-- C8: for every controller state and every transport on which writes
succeed, two calls of `mira220_set_stream` in a row with a true `enable` (1,
or any non-zero value the 8-bit flag can hold) issue the same events, hence
the same register writes (0x10 to the mode register, 0x01 to the start
register), the second time as the first, whatever the streaming flag was, and
the streaming flag is true (it is `enable`, non-zero) after the first call
and after the second. -/
theorem C8_set_stream_twice (env : Env) (t : Transport) (log : List BusEvent)
    (dev : esp_cam_sensor_device_t) (enable : Int)
    (he : env.regsInRange) (ht : AllWritesOk t) (h0 : 0 < enable) (h1 : enable < 256) :
    ∃ evs,
      (mira220_set_stream env t log dev enable).2.2 = log ++ evs
      ∧ (mira220_set_stream env t (mira220_set_stream env t log dev enable).2.2
          (mira220_set_stream env t log dev enable).2.1 enable).2.2 = (log ++ evs) ++ evs
      ∧ writesOf evs = [(env.mira220_REG_MODE, 0x10), (env.mira220_REG_START, 0x01)]
      ∧ (mira220_set_stream env t log dev enable).2.1.stream_status = enable
      ∧ (mira220_set_stream env t log dev enable).2.1.stream_status ≠ 0
      ∧ (mira220_set_stream env t (mira220_set_stream env t log dev enable).2.2
          (mira220_set_stream env t log dev enable).2.1 enable).2.1.stream_status = enable
      ∧ (mira220_set_stream env t (mira220_set_stream env t log dev enable).2.2
          (mira220_set_stream env t log dev enable).2.1 enable).2.1.stream_status ≠ 0 := by
  obtain ⟨hm, hs, _⟩ := he
  have hen : enable ≠ 0 := by omega
  have hmod : enable % 256 = enable := Int.emod_eq_of_lt (by omega) h1
  have hflag : ∀ (l : List BusEvent) (d : esp_cam_sensor_device_t),
      (mira220_set_stream env t l d enable).2.1.stream_status = enable := by
    intro l d
    show enable % 256 = enable
    exact hmod
  refine ⟨[BusEvent.write env.mira220_REG_MODE 0x10, BusEvent.delay 10,
           BusEvent.write env.mira220_REG_START 0x01, BusEvent.delay 10], ?_, ?_, ?_,
          hflag _ _, ?_, hflag _ _, ?_⟩
  · simp [mira220_set_stream, mira220_write, delay_ms, hen, Nat.mod_eq_of_lt hm,
      Nat.mod_eq_of_lt hs]
  · simp [mira220_set_stream, mira220_write, delay_ms, hen, Nat.mod_eq_of_lt hm,
      Nat.mod_eq_of_lt hs]
  · simp [writesOf]
  · rw [hflag]
    exact hen
  · rw [hflag]
    exact hen

/-- C8 on the controller of `sampleEnv` with `enable` 1. -/
theorem C8_set_stream_twice_witness :
    sampleEnv.regsInRange ∧ AllWritesOk okTransport ∧ (0 : Int) < 1 ∧ (1 : Int) < 256
    ∧ ∃ evs,
      (mira220_set_stream sampleEnv okTransport [] sampleDev 1).2.2 = [] ++ evs
      ∧ (mira220_set_stream sampleEnv okTransport
          (mira220_set_stream sampleEnv okTransport [] sampleDev 1).2.2
          (mira220_set_stream sampleEnv okTransport [] sampleDev 1).2.1 1).2.2
            = ([] ++ evs) ++ evs
      ∧ writesOf evs
          = [(sampleEnv.mira220_REG_MODE, 0x10), (sampleEnv.mira220_REG_START, 0x01)]
      ∧ (mira220_set_stream sampleEnv okTransport [] sampleDev 1).2.1.stream_status = 1
      ∧ (mira220_set_stream sampleEnv okTransport [] sampleDev 1).2.1.stream_status ≠ 0
      ∧ (mira220_set_stream sampleEnv okTransport
          (mira220_set_stream sampleEnv okTransport [] sampleDev 1).2.2
          (mira220_set_stream sampleEnv okTransport [] sampleDev 1).2.1 1).2.1.stream_status
            = 1
      ∧ (mira220_set_stream sampleEnv okTransport
          (mira220_set_stream sampleEnv okTransport [] sampleDev 1).2.2
          (mira220_set_stream sampleEnv okTransport [] sampleDev 1).2.1 1).2.1.stream_status
            ≠ 0 :=
  ⟨sampleEnv_regsInRange, allWritesOk_okTransport, by decide, by decide,
   C8_set_stream_twice sampleEnv okTransport [] sampleDev 1 sampleEnv_regsInRange
     allWritesOk_okTransport (by decide) (by decide)⟩

/-! ## C9, C10: the exposure value -/

/-- C9, as stated, fails: the catalog format gives the maximum
4100 - 6 = 4094, and for the exposure value 5000 above it, on a transport
whose writes succeed, `mira220_set_para_value` returns `ESP_OK`, issues two
register writes and changes the cached exposure value from 0 to 5000. -/
theorem C9_set_para_value_accepts_exposure_above_max :
    sampleDev.cur_format = some (mira220_format_info sampleEnv)
    ∧ (mira220_format_info sampleEnv).isp_info = some (mira220_isp_info sampleEnv)
    ∧ (mira220_isp_info sampleEnv).vts - mira220_EXP_MAX_OFFSET = 4094
    ∧ 4094 < 5000
    ∧ sampleDev.priv.mira220_para.exposure_val = 0
    ∧ (mira220_set_para_value sampleEnv okTransport [] sampleDev
        sampleEnv.ESP_CAM_SENSOR_EXPOSURE_VAL 5000).1 = ESP_OK
    ∧ writesOf (mira220_set_para_value sampleEnv okTransport [] sampleDev
        sampleEnv.ESP_CAM_SENSOR_EXPOSURE_VAL 5000).2.2 = [(0x100C, 1), (0x100D, 1)]
    ∧ (mira220_set_para_value sampleEnv okTransport [] sampleDev
        sampleEnv.ESP_CAM_SENSOR_EXPOSURE_VAL 5000).2.1.priv.mira220_para.exposure_val
          = 5000 := by
  decide

/-- C9, amended: `mira220_set_para_value` with id
`ESP_CAM_SENSOR_EXPOSURE_VAL` applies no upper bound to the value: for every
32-bit value `v`, also one above the format-derived maximum, on a transport
whose writes succeed it issues one write to the exposure-low register and one
to the exposure-high register, returns `ESP_OK` and sets the cached exposure
value to `v`. -/
theorem C9_set_para_value_exposure_unbounded (env : Env) (t : Transport)
    (log : List BusEvent) (dev : esp_cam_sensor_device_t) (v : Nat)
    (he : env.regsInRange) (ht : AllWritesOk t) (hv : v < 2 ^ 32) :
    ∃ d1 d2,
      mira220_set_para_value env t log dev env.ESP_CAM_SENSOR_EXPOSURE_VAL v
        = (ESP_OK,
           { dev with priv :=
               { mira220_para := { dev.priv.mira220_para with exposure_val := v } } },
           log ++ [BusEvent.write env.mira220_REG_EXP_L d1,
                   BusEvent.write env.mira220_REG_EXP_H d2]) := by
  obtain ⟨_, _, hl, hh, _⟩ := he
  refine ⟨logicalAnd v 0x00FF % 256, logicalAnd v 0xFF00 % 256, ?_⟩
  have h1 : v % 2 ^ 32 = v := Nat.mod_eq_of_lt hv
  have h2 : v % 4294967296 = v := by simpa using h1
  simp [mira220_set_para_value, mira220_set_exp_val, mira220_write, ht _ _ _, h2,
    Nat.mod_eq_of_lt hl, Nat.mod_eq_of_lt hh]

/-- C9, amended, at the value 5000 on the controller of `sampleEnv`. -/
theorem C9_set_para_value_exposure_witness :
    sampleEnv.regsInRange ∧ AllWritesOk okTransport ∧ 5000 < 2 ^ 32
    ∧ ∃ d1 d2,
      mira220_set_para_value sampleEnv okTransport [] sampleDev
          sampleEnv.ESP_CAM_SENSOR_EXPOSURE_VAL 5000
        = (ESP_OK,
           { sampleDev with priv :=
               { mira220_para := { sampleDev.priv.mira220_para with exposure_val := 5000 } } },
           [] ++ [BusEvent.write sampleEnv.mira220_REG_EXP_L d1,
                   BusEvent.write sampleEnv.mira220_REG_EXP_H d2]) :=
  ⟨sampleEnv_regsInRange, allWritesOk_okTransport, by decide,
   C9_set_para_value_exposure_unbounded sampleEnv okTransport [] sampleDev 5000
     sampleEnv_regsInRange allWritesOk_okTransport (by decide)⟩

/-- C10 at the exposure value 0x1234, whose low byte is 0x34 and whose high
byte is 0x12: `mira220_set_exp_val` writes the value 1 to the exposure-low
register and the value 1 to the exposure-high register (the truth values of
`value_buf&&0x00FF` and `value_buf&&0xFF00`), and 1*256 + 1 is not 0x1234. -/
theorem C10_set_exp_val_writes_truth_values (env : Env) (t : Transport)
    (log : List BusEvent) (dev : esp_cam_sensor_device_t) :
    (mira220_set_exp_val env t log dev 0x1234).2.2
        = log ++ [BusEvent.write (env.mira220_REG_EXP_L % 65536) 1,
                  BusEvent.write (env.mira220_REG_EXP_H % 65536) 1]
    ∧ 0x1234 % 256 = 0x34 ∧ 0x1234 / 256 % 256 = 0x12
    ∧ 1 * 256 + 1 ≠ 0x1234 := by
  refine ⟨?_, by decide, by decide, by decide⟩
  simp [mira220_set_exp_val, mira220_write, logicalAnd]

/-! ## C11, C12, C13: the exposure cache and the parameter dispatch -/

/-- C11 on the controller of `sampleEnv` (cached exposure 0) with the value
100: when the low-byte write fails and the high-byte write succeeds,
`mira220_set_exp_val` returns `ESP_OK` and the cached exposure value becomes
100; when the high-byte write fails it leaves the cache at 0 and still returns
`ESP_OK`. -/
theorem C11_set_exp_val_after_failed_write :
    sampleDev.priv.mira220_para.exposure_val = 0
    ∧ (failNthWrite 0).write [] 0x100C 1 = ESP_FAIL
    ∧ (failNthWrite 0).write [BusEvent.write 0x100C 1] 0x100D 1 = ESP_OK
    ∧ (mira220_set_exp_val sampleEnv (failNthWrite 0) [] sampleDev 100).1 = ESP_OK
    ∧ (mira220_set_exp_val sampleEnv (failNthWrite 0) [] sampleDev 100).2.1.priv.mira220_para.exposure_val
        = 100
    ∧ (mira220_set_exp_val sampleEnv (failNthWrite 0) [] sampleDev 100).2.2
        = [BusEvent.write 0x100C 1, BusEvent.write 0x100D 1]
    ∧ (failNthWrite 1).write [BusEvent.write 0x100C 1] 0x100D 1 = ESP_FAIL
    ∧ (mira220_set_exp_val sampleEnv (failNthWrite 1) [] sampleDev 100).1 = ESP_OK
    ∧ (mira220_set_exp_val sampleEnv (failNthWrite 1) [] sampleDev 100).2.1.priv.mira220_para.exposure_val
        = 0 := by
  decide

theorem sampleEnv_labelsDistinct : sampleEnv.labelsDistinct := by
  simp [Env.labelsDistinct, sampleEnv]

/-- C12: for a parameter id that is none of the ids the driver dispatches on
(exposure value, vertical flip, horizontal mirror), `mira220_query_para_desc`
and `mira220_set_para_value` return `ESP_ERR_INVALID_ARG`, issue no bus event
and change neither the descriptor nor the controller; but
`mira220_get_para_value` returns `ESP_OK` (it returns before its `switch`). -/
theorem C12_unsupported_id (env : Env) (t : Transport) (log : List BusEvent)
    (dev : esp_cam_sensor_device_t) (qdesc : esp_cam_sensor_param_desc_t) (id arg : Nat)
    (hq : qdesc.id = id)
    (h1 : id ≠ env.ESP_CAM_SENSOR_EXPOSURE_VAL) (h2 : id ≠ env.ESP_CAM_SENSOR_VFLIP)
    (h3 : id ≠ env.ESP_CAM_SENSOR_HMIRROR) :
    mira220_query_para_desc env dev qdesc = some (ESP_ERR_INVALID_ARG, qdesc)
    ∧ mira220_set_para_value env t log dev id arg = (ESP_ERR_INVALID_ARG, dev, log)
    ∧ ESP_ERR_INVALID_ARG ≠ ESP_OK
    ∧ mira220_get_para_value env dev id arg = (ESP_OK, arg) := by
  refine ⟨?_, ?_, by decide, rfl⟩
  · simp [mira220_query_para_desc, hq, h1, h2, h3]
  · simp [mira220_set_para_value, h1, h2, h3]

/-- C12 at the id 99 on the controller of `sampleEnv`. -/
theorem C12_unsupported_id_witness :
    (staleDesc 99).id = 99
    ∧ 99 ≠ sampleEnv.ESP_CAM_SENSOR_EXPOSURE_VAL ∧ 99 ≠ sampleEnv.ESP_CAM_SENSOR_VFLIP
    ∧ 99 ≠ sampleEnv.ESP_CAM_SENSOR_HMIRROR ∧ 99 ≠ sampleEnv.ESP_CAM_SENSOR_GAIN
    ∧ mira220_query_para_desc sampleEnv sampleDev (staleDesc 99)
        = some (ESP_ERR_INVALID_ARG, staleDesc 99)
    ∧ mira220_set_para_value sampleEnv okTransport [] sampleDev 99 1
        = (ESP_ERR_INVALID_ARG, sampleDev, [])
    ∧ ESP_ERR_INVALID_ARG ≠ ESP_OK
    ∧ mira220_get_para_value sampleEnv sampleDev 99 1 = (ESP_OK, 1) :=
  ⟨rfl, by decide, by decide, by decide, by decide,
   C12_unsupported_id sampleEnv okTransport [] sampleDev (staleDesc 99) 99 1 rfl
     (by decide) (by decide) (by decide)⟩

/-- C13 on the controller of `sampleEnv`: after
`mira220_set_para_value(ESP_CAM_SENSOR_EXPOSURE_VAL, 100)` returned `ESP_OK`
with every write succeeding and the cache holding 100,
`mira220_get_para_value(ESP_CAM_SENSOR_EXPOSURE_VAL)` returns `ESP_OK` and the
caller's output word still holds what it held before (0), not 100; for every
controller, id and output word the call stores nothing. -/
theorem C13_get_para_value_stores_nothing :
    (mira220_set_para_value sampleEnv okTransport [] sampleDev
        sampleEnv.ESP_CAM_SENSOR_EXPOSURE_VAL 100).1 = ESP_OK
    ∧ (mira220_set_para_value sampleEnv okTransport [] sampleDev
        sampleEnv.ESP_CAM_SENSOR_EXPOSURE_VAL 100).2.1.priv.mira220_para.exposure_val = 100
    ∧ mira220_get_para_value sampleEnv
        (mira220_set_para_value sampleEnv okTransport [] sampleDev
          sampleEnv.ESP_CAM_SENSOR_EXPOSURE_VAL 100).2.1
        sampleEnv.ESP_CAM_SENSOR_EXPOSURE_VAL 0 = (ESP_OK, 0)
    ∧ (0 : Nat) ≠ 100
    ∧ ∀ (env : Env) (dev : esp_cam_sensor_device_t) (id arg : Nat),
        mira220_get_para_value env dev id arg = (ESP_OK, arg) := by
  refine ⟨by decide, by decide, rfl, by decide, ?_⟩
  intro env dev id arg
  rfl

/-! ## C14, C15: identity -/

theorem toInt32_ne_zero_iff (w : Nat) (hw : w < 2 ^ 32) : toInt32 w ≠ 0 ↔ w ≠ 0 := by
  have h : w % 2 ^ 32 = w := Nat.mod_eq_of_lt hw
  unfold toInt32
  rw [h]
  split <;> omega

theorem pid_combine (h l : Nat) :
    ((h % 256) <<< 8 ||| (l % 256)) % 65536 = (h % 256) * 256 + l % 256 := by
  have hl : l % 256 < 2 ^ 8 := by omega
  have := Nat.mul_add_lt_is_or hl (h % 256)
  rw [Nat.shiftLeft_eq, Nat.mul_comm (h % 256) (2 ^ 8), ← this]
  omega

/-- C14, as stated, fails: on a transport whose identity reads return
(0x01, 0x31), so that `mira220_get_sensor_id` would report the part-id 0x0131
and not `mira220_PID`, and on a transport whose reads fail, `mira220_detect`
returns a controller all the same, having read nothing. -/
theorem C14_detect_ignores_identity :
    (mira220_get_sensor_id sampleEnv (readTransport ESP_OK 0x01 ESP_OK 0x31) [] sampleDev
        { pid := 0 })
      = (ESP_OK, { pid := 0x0131 }, [BusEvent.read 0x0011, BusEvent.read 0x0012])
    ∧ 0x0131 ≠ mira220_PID
    ∧ mira220_detect sampleEnv (readTransport ESP_OK 0x01 ESP_OK 0x31) [] sampleConfig true true
        = (some sampleDev, [])
    ∧ (readTransport ESP_FAIL 0 ESP_FAIL 0).read [] 0x0011 = (ESP_FAIL, 0)
    ∧ mira220_detect sampleEnv (readTransport ESP_FAIL 0 ESP_FAIL 0) [] sampleConfig true true
        = (some sampleDev, []) := by
  decide

/-- C14, amended: `mira220_detect` reads no identity register and compares
nothing with the part-id: for every transport it issues no bus event, and it
returns a usable controller exactly when its two allocations succeed, with
the part-id field of the controller left at 0 and the current format set to
the default catalog format. -/
theorem C14_detect_without_identity_check (env : Env) (t : Transport) (log : List BusEvent)
    (config : esp_cam_sensor_config_t) (calloc_ok heap_caps_calloc_ok : Bool) :
    (mira220_detect env t log config calloc_ok heap_caps_calloc_ok).2 = log
    ∧ ((mira220_detect env t log config calloc_ok heap_caps_calloc_ok).1.isSome = true
        ↔ (calloc_ok = true ∧ heap_caps_calloc_ok = true))
    ∧ ∀ dev, (mira220_detect env t log config calloc_ok heap_caps_calloc_ok).1 = some dev →
        dev.id.pid = 0 ∧ dev.sccb_handle = config.sccb_handle
        ∧ dev.cur_format = some (mira220_format_info env) := by
  cases calloc_ok <;> cases heap_caps_calloc_ok <;>
    simp [mira220_detect, mira220_power_on, ESP_OK]

/-- C15: for every transport, `mira220_get_sensor_id` reads the high identity
register first and the low one second and issues no write.  When the first
read fails it returns that error after this one read, with `id` as it was;
when the second read fails it returns that error with `id` as it was; when
both succeed, with bytes `h` and `l`, it returns `ESP_OK` and the part-id is
`h*256 + l`. -/
theorem C15_get_sensor_id (env : Env) (t : Transport) (log : List BusEvent)
    (dev : esp_cam_sensor_device_t) (id : esp_cam_sensor_id_t) (he : env.regsInRange) :
    ((t.read log env.mira220_REG_SENSOR_ID_H).1 ≠ ESP_OK →
      mira220_get_sensor_id env t log dev id
        = ((t.read log env.mira220_REG_SENSOR_ID_H).1, id,
           log ++ [BusEvent.read env.mira220_REG_SENSOR_ID_H]))
    ∧ ((t.read log env.mira220_REG_SENSOR_ID_H).1 = ESP_OK →
        (t.read (log ++ [BusEvent.read env.mira220_REG_SENSOR_ID_H])
          env.mira220_REG_SENSOR_ID_L).1 ≠ ESP_OK →
      mira220_get_sensor_id env t log dev id
        = ((t.read (log ++ [BusEvent.read env.mira220_REG_SENSOR_ID_H])
              env.mira220_REG_SENSOR_ID_L).1, id,
           log ++ [BusEvent.read env.mira220_REG_SENSOR_ID_H,
                   BusEvent.read env.mira220_REG_SENSOR_ID_L]))
    ∧ ((t.read log env.mira220_REG_SENSOR_ID_H).1 = ESP_OK →
        (t.read (log ++ [BusEvent.read env.mira220_REG_SENSOR_ID_H])
          env.mira220_REG_SENSOR_ID_L).1 = ESP_OK →
      mira220_get_sensor_id env t log dev id
        = (ESP_OK,
           { id with pid :=
               (t.read log env.mira220_REG_SENSOR_ID_H).2 % 256 * 256
               + (t.read (log ++ [BusEvent.read env.mira220_REG_SENSOR_ID_H])
                   env.mira220_REG_SENSOR_ID_L).2 % 256 },
           log ++ [BusEvent.read env.mira220_REG_SENSOR_ID_H,
                   BusEvent.read env.mira220_REG_SENSOR_ID_L]))
    ∧ writesOf (mira220_get_sensor_id env t log dev id).2.2 = writesOf log := by
  obtain ⟨_, _, _, _, hH, hL⟩ := he
  refine ⟨?_, ?_, ?_, ?_⟩
  · intro h1
    simp [mira220_get_sensor_id, mira220_read, Nat.mod_eq_of_lt hH, h1]
  · intro h1 h2
    simp [mira220_get_sensor_id, mira220_read, Nat.mod_eq_of_lt hH, Nat.mod_eq_of_lt hL, h1, h2]
  · intro h1 h2
    simp only [mira220_get_sensor_id, mira220_read, Nat.mod_eq_of_lt hH, Nat.mod_eq_of_lt hL,
      h1, h2, ne_eq, not_true_eq_false, if_false, pid_combine]
    simp
  · simp only [mira220_get_sensor_id, mira220_read]
    split
    · simp [writesOf_append, writesOf]
    · split <;> simp [writesOf_append, writesOf]

/-- C15 on identity reads that return the bytes 0x01 and 0x30: the part-id
is 0x0130. -/
theorem C15_get_sensor_id_witness :
    sampleEnv.regsInRange
    ∧ mira220_get_sensor_id sampleEnv (readTransport ESP_OK 0x01 ESP_OK 0x30) [] sampleDev
        { pid := 0 }
      = (ESP_OK, { pid := 0x0130 }, [BusEvent.read 0x0011, BusEvent.read 0x0012])
    ∧ mira220_get_sensor_id sampleEnv (readTransport ESP_FAIL 0x01 ESP_OK 0x30) [] sampleDev
        { pid := 7 }
      = (ESP_FAIL, { pid := 7 }, [BusEvent.read 0x0011])
    ∧ mira220_get_sensor_id sampleEnv (readTransport ESP_OK 0x01 ESP_FAIL 0x30) [] sampleDev
        { pid := 7 }
      = (ESP_FAIL, { pid := 7 }, [BusEvent.read 0x0011, BusEvent.read 0x0012]) :=
  ⟨sampleEnv_regsInRange,
   ((C15_get_sensor_id sampleEnv (readTransport ESP_OK 0x01 ESP_OK 0x30) [] sampleDev
      { pid := 0 } sampleEnv_regsInRange).2.2.1 (by decide) (by decide)).trans (by decide),
   ((C15_get_sensor_id sampleEnv (readTransport ESP_FAIL 0x01 ESP_OK 0x30) [] sampleDev
      { pid := 7 } sampleEnv_regsInRange).1 (by decide)).trans (by decide),
   ((C15_get_sensor_id sampleEnv (readTransport ESP_OK 0x01 ESP_FAIL 0x30) [] sampleDev
      { pid := 7 } sampleEnv_regsInRange).2.1 (by decide) (by decide)).trans (by decide)⟩

/-! ## C16, C17, C18: mirror, flip, group update, descriptors -/

/-- C16: for every controller state and every 32-bit argument word `x`,
`mira220_set_para_value` with the mirror id issues exactly one write, to
register 0x209C with value 1 if `x` is non-zero and 0 otherwise, and with the
flip id exactly one write, to register 0x1095 with value 1 if `x` is non-zero
and 0 otherwise; each returns the transport's result for its write and leaves
the controller (streaming flag, current format, cached exposure) as it was. -/
theorem C16_mirror_flip_single_write (env : Env) (t : Transport) (log : List BusEvent)
    (dev : esp_cam_sensor_device_t) (x : Nat)
    (hd : env.labelsDistinct) (hx : x < 2 ^ 32) :
    mira220_set_para_value env t log dev env.ESP_CAM_SENSOR_HMIRROR x
      = (t.write log 0x209C (if x ≠ 0 then 1 else 0), dev,
         log ++ [BusEvent.write 0x209C (if x ≠ 0 then 1 else 0)])
    ∧ mira220_set_para_value env t log dev env.ESP_CAM_SENSOR_VFLIP x
      = (t.write log 0x1095 (if x ≠ 0 then 1 else 0), dev,
         log ++ [BusEvent.write 0x1095 (if x ≠ 0 then 1 else 0)]) := by
  obtain ⟨h1, h2, h3, _⟩ := hd
  have hx0 := toInt32_ne_zero_iff x hx
  by_cases h : x = 0
  · have ht : toInt32 x = 0 := by
      by_contra hc
      exact (hx0.1 hc) h
    subst h
    simp [mira220_set_para_value, mira220_set_mirror, mira220_set_vflip, mira220_write,
      h1.symm, h2.symm, h3.symm, ht]
  · have ht : toInt32 x ≠ 0 := hx0.2 h
    simp [mira220_set_para_value, mira220_set_mirror, mira220_set_vflip, mira220_write,
      h1.symm, h2.symm, h3.symm, h, ht]

/-- C16 on the controller of `sampleEnv` with the argument 1, the mirror write
failing. -/
theorem C16_mirror_flip_witness :
    sampleEnv.labelsDistinct ∧ 1 < 2 ^ 32
    ∧ mira220_set_para_value sampleEnv (failNthWrite 0) [] sampleDev
        sampleEnv.ESP_CAM_SENSOR_HMIRROR 1
      = ((failNthWrite 0).write [] 0x209C (if 1 ≠ 0 then 1 else 0), sampleDev,
         [] ++ [BusEvent.write 0x209C (if 1 ≠ 0 then 1 else 0)])
    ∧ mira220_set_para_value sampleEnv (failNthWrite 0) [] sampleDev
        sampleEnv.ESP_CAM_SENSOR_VFLIP 1
      = ((failNthWrite 0).write [] 0x1095 (if 1 ≠ 0 then 1 else 0), sampleDev,
         [] ++ [BusEvent.write 0x1095 (if 1 ≠ 0 then 1 else 0)]) :=
  ⟨sampleEnv_labelsDistinct, by decide,
   C16_mirror_flip_single_write sampleEnv (failNthWrite 0) [] sampleDev 1
     sampleEnv_labelsDistinct (by decide)⟩

/-- C17, as stated, fails: with a group exposure+gain id (5 on `sampleEnv`,
different from the three ids the `switch` handles) and every write
succeeding, `mira220_set_para_value` issues no write at all and returns
`ESP_ERR_INVALID_ARG`, not success. -/
theorem C17_group_update_not_dispatched :
    5 ≠ sampleEnv.ESP_CAM_SENSOR_EXPOSURE_VAL ∧ 5 ≠ sampleEnv.ESP_CAM_SENSOR_VFLIP
    ∧ 5 ≠ sampleEnv.ESP_CAM_SENSOR_HMIRROR
    ∧ mira220_set_para_value sampleEnv okTransport [] sampleDev 5 1000
        = (ESP_ERR_INVALID_ARG, sampleDev, [])
    ∧ ESP_ERR_INVALID_ARG ≠ ESP_OK := by
  decide

/-- C17, amended: a group exposure+gain update requested through
`mira220_set_para_value` (id `ESP_CAM_SENSOR_GROUP_EXP_GAIN`, which is none of
the ids the `switch` handles) is not carried out: on every transport the call
issues no write, neither hold-start, parameter, hold-delay nor hold-end,
leaves the controller unchanged and returns `ESP_ERR_INVALID_ARG`. -/
theorem C17_group_update_rejected (env : Env) (t : Transport) (log : List BusEvent)
    (dev : esp_cam_sensor_device_t) (ESP_CAM_SENSOR_GROUP_EXP_GAIN arg : Nat)
    (h1 : ESP_CAM_SENSOR_GROUP_EXP_GAIN ≠ env.ESP_CAM_SENSOR_EXPOSURE_VAL)
    (h2 : ESP_CAM_SENSOR_GROUP_EXP_GAIN ≠ env.ESP_CAM_SENSOR_VFLIP)
    (h3 : ESP_CAM_SENSOR_GROUP_EXP_GAIN ≠ env.ESP_CAM_SENSOR_HMIRROR) :
    mira220_set_para_value env t log dev ESP_CAM_SENSOR_GROUP_EXP_GAIN arg
      = (ESP_ERR_INVALID_ARG, dev, log)
    ∧ writesOf (mira220_set_para_value env t log dev ESP_CAM_SENSOR_GROUP_EXP_GAIN arg).2.2
      = writesOf log
    ∧ (mira220_set_para_value env t log dev ESP_CAM_SENSOR_GROUP_EXP_GAIN arg).1 ≠ ESP_OK := by
  have h : mira220_set_para_value env t log dev ESP_CAM_SENSOR_GROUP_EXP_GAIN arg
      = (ESP_ERR_INVALID_ARG, dev, log) := by
    simp [mira220_set_para_value, h1, h2, h3]
  rw [h]
  refine ⟨rfl, rfl, ?_⟩
  show ESP_ERR_INVALID_ARG ≠ ESP_OK
  decide

/-- C17, amended, at the id 5 on the controller of `sampleEnv`. -/
theorem C17_group_update_witness :
    5 ≠ sampleEnv.ESP_CAM_SENSOR_EXPOSURE_VAL ∧ 5 ≠ sampleEnv.ESP_CAM_SENSOR_VFLIP
    ∧ 5 ≠ sampleEnv.ESP_CAM_SENSOR_HMIRROR
    ∧ mira220_set_para_value sampleEnv okTransport [] sampleDev 5 1000
        = (ESP_ERR_INVALID_ARG, sampleDev, [])
    ∧ writesOf (mira220_set_para_value sampleEnv okTransport [] sampleDev 5 1000).2.2
        = writesOf []
    ∧ (mira220_set_para_value sampleEnv okTransport [] sampleDev 5 1000).1 ≠ ESP_OK :=
  ⟨by decide, by decide, by decide,
   C17_group_update_rejected sampleEnv okTransport [] sampleDev 5 1000
     (by decide) (by decide) (by decide)⟩

/-- C18: for a descriptor with the vertical-flip id, `mira220_query_para_desc`
returns `ESP_OK` and leaves type, minimum, maximum, step and default value as
the descriptor held them before the call (its `case` is an empty `break`),
while for the horizontal-mirror id it sets them to NUMBER, 0, 1, 1, 0. -/
theorem C18_query_para_desc_vflip_untouched (env : Env) (dev : esp_cam_sensor_device_t)
    (qdesc : esp_cam_sensor_param_desc_t) (hd : env.labelsDistinct) :
    (qdesc.id = env.ESP_CAM_SENSOR_VFLIP →
      mira220_query_para_desc env dev qdesc = some (ESP_OK, qdesc))
    ∧ (qdesc.id = env.ESP_CAM_SENSOR_HMIRROR →
      mira220_query_para_desc env dev qdesc
        = some (ESP_OK,
            { id := qdesc.id, type := env.ESP_CAM_SENSOR_PARAM_TYPE_NUMBER,
              number_minimum := 0, number_maximum := 1, number_step := 1,
              default_value := 0 })) := by
  obtain ⟨h1, h2, h3, _⟩ := hd
  constructor
  · intro h
    simp [mira220_query_para_desc, h, h1.symm]
  · intro h
    simp [mira220_query_para_desc, h, h2.symm, h3.symm]

/-- C18 on `sampleEnv` with a descriptor holding left-over values: for the
flip id the left-over type 7, minimum 5, maximum 9, step 3 and default 4 are
what the caller gets back, not NUMBER (1), 0, 1, 1, 0. -/
theorem C18_query_para_desc_witness :
    sampleEnv.labelsDistinct
    ∧ mira220_query_para_desc sampleEnv sampleDev (staleDesc sampleEnv.ESP_CAM_SENSOR_VFLIP)
        = some (ESP_OK,
            { id := 3, type := 7, number_minimum := 5, number_maximum := 9,
              number_step := 3, default_value := 4 })
    ∧ mira220_query_para_desc sampleEnv sampleDev (staleDesc sampleEnv.ESP_CAM_SENSOR_HMIRROR)
        = some (ESP_OK,
            { id := 4, type := 1, number_minimum := 0, number_maximum := 1,
              number_step := 1, default_value := 0 }) :=
  ⟨sampleEnv_labelsDistinct,
   ((C18_query_para_desc_vflip_untouched sampleEnv sampleDev
      (staleDesc sampleEnv.ESP_CAM_SENSOR_VFLIP) sampleEnv_labelsDistinct).1 rfl).trans rfl,
   ((C18_query_para_desc_vflip_untouched sampleEnv sampleDev
      (staleDesc sampleEnv.ESP_CAM_SENSOR_HMIRROR) sampleEnv_labelsDistinct).2 rfl).trans rfl⟩

/-! ## C19, C20: the value of `mira220_write_array`, the ioctl dispatch -/

/-- C19: for every register program with a sentinel and every transport, the
value `mira220_write_array` returns is the result of the last write it issued,
the write of the pair just before the first sentinel, and it is `ESP_OK` when
the program starts with the sentinel (no write is issued then). -/
theorem C19_write_array_returns_last_result (t : Transport) (log : List BusEvent)
    (P : List mira220_reginfo_t)
    (hP : ∃ r ∈ P, r.reg.val = 0xFFFF ∧ r.val.val = 0xFF) :
    ∃ ret evs, mira220_write_array t log P = some (ret, log ++ evs)
      ∧ (∀ pre r, beforeSentinel P = pre ++ [r] →
          evs = BusEvent.delay 100 :: (pre.map writeEvent ++ [writeEvent r])
          ∧ ret = t.write (log ++ BusEvent.delay 100 :: pre.map writeEvent) r.reg.val r.val.val)
      ∧ (∀ s rest, P = s :: rest → (s.reg.val = 0xFFFF ∧ s.val.val = 0xFF) →
          evs = [BusEvent.delay 100] ∧ ret = ESP_OK) := by
  refine ⟨_, _, mira220_write_array_eq t log P hP, ?_, ?_⟩
  · intro pre r hpre
    rw [hpre, lastWriteResult_append_singleton]
    simp
  · intro s rest hs hsent
    have hb : beforeSentinel P = [] := by
      rw [hs]
      simp [beforeSentinel, List.takeWhile, (isSentinel_iff s).2 hsent]
    rw [hb]
    exact ⟨rfl, rfl⟩

/-- C19 on `sampleProgram` with the write at index 1 failing and the last
write (index 2) succeeding: the value is `ESP_OK`. -/
theorem C19_write_array_witness :
    (∃ r ∈ sampleProgram, r.reg.val = 0xFFFF ∧ r.val.val = 0xFF)
    ∧ (failNthWrite 1).write [BusEvent.delay 100, BusEvent.write 0x1003 0x08] 0xFFFF 0x01
        = ESP_FAIL
    ∧ (∃ ret evs, mira220_write_array (failNthWrite 1) [] sampleProgram = some (ret, [] ++ evs)
      ∧ (∀ pre r, beforeSentinel sampleProgram = pre ++ [r] →
          evs = BusEvent.delay 100 :: (pre.map writeEvent ++ [writeEvent r])
          ∧ ret = (failNthWrite 1).write ([] ++ BusEvent.delay 100 :: pre.map writeEvent)
              r.reg.val r.val.val)
      ∧ (∀ s rest, sampleProgram = s :: rest → (s.reg.val = 0xFFFF ∧ s.val.val = 0xFF) →
          evs = [BusEvent.delay 100] ∧ ret = ESP_OK))
    ∧ (mira220_write_array (failNthWrite 1) [] sampleProgram).map (fun r => r.1) = some ESP_OK
    ∧ (mira220_write_array okTransport [] [⟨0xFFFF, 0xFF⟩, ⟨0x1003, 0x08⟩]).map (fun r => r.1)
        = some ESP_OK :=
  ⟨by decide, by decide,
   C19_write_array_returns_last_result (failNthWrite 1) [] sampleProgram (by decide),
   by decide, by decide⟩

/-- C20: for every command code other than the stream command and the
test-pattern command, `mira220_priv_ioctl` returns `ESP_OK`, issues no bus
event and leaves the controller unchanged; for the test-pattern command with
the 32-bit argument word `x` it issues exactly one write, to register 0x2091
with value 1 if `x` is non-zero and 0 otherwise, and returns that write's
result. -/
theorem C20_priv_ioctl_dispatch (env : Env) (t : Transport) (log : List BusEvent)
    (dev : esp_cam_sensor_device_t) (cmd x : Nat)
    (hd : env.labelsDistinct) (hx : x < 2 ^ 32) :
    (cmd ≠ env.ESP_CAM_SENSOR_IOC_S_STREAM → cmd ≠ env.ESP_CAM_SENSOR_IOC_S_TEST_PATTERN →
      mira220_priv_ioctl env t log dev cmd x = (ESP_OK, dev, log))
    ∧ mira220_priv_ioctl env t log dev env.ESP_CAM_SENSOR_IOC_S_TEST_PATTERN x
      = (t.write log 0x2091 (if x ≠ 0 then 1 else 0), dev,
         log ++ [BusEvent.write 0x2091 (if x ≠ 0 then 1 else 0)]) := by
  obtain ⟨_, _, _, h4⟩ := hd
  have hx0 := toInt32_ne_zero_iff x hx
  constructor
  · intro h1 h2
    simp [mira220_priv_ioctl, h1, h2]
  · by_cases h : x = 0
    · have ht : toInt32 x = 0 := by
        by_contra hc
        exact (hx0.1 hc) h
      subst h
      simp [mira220_priv_ioctl, mira220_set_test_pattern, mira220_write, h4.symm, ht]
    · have ht : toInt32 x ≠ 0 := hx0.2 h
      simp [mira220_priv_ioctl, mira220_set_test_pattern, mira220_write, h4.symm, h, ht]

/-- C20 on the controller of `sampleEnv`: the command code 12 does nothing,
the test-pattern command with argument 1 writes 1 to register 0x2091. -/
theorem C20_priv_ioctl_witness :
    sampleEnv.labelsDistinct ∧ 1 < 2 ^ 32
    ∧ ((12 ≠ sampleEnv.ESP_CAM_SENSOR_IOC_S_STREAM →
        12 ≠ sampleEnv.ESP_CAM_SENSOR_IOC_S_TEST_PATTERN →
        mira220_priv_ioctl sampleEnv (failNthWrite 0) [] sampleDev 12 1
          = (ESP_OK, sampleDev, []))
      ∧ mira220_priv_ioctl sampleEnv (failNthWrite 0) [] sampleDev
          sampleEnv.ESP_CAM_SENSOR_IOC_S_TEST_PATTERN 1
        = ((failNthWrite 0).write [] 0x2091 (if 1 ≠ 0 then 1 else 0), sampleDev,
           [] ++ [BusEvent.write 0x2091 (if 1 ≠ 0 then 1 else 0)])) :=
  ⟨sampleEnv_labelsDistinct, by decide,
   C20_priv_ioctl_dispatch sampleEnv (failNthWrite 0) [] sampleDev 12 1
     sampleEnv_labelsDistinct (by decide)⟩

end Mira220
